import Mathlib

/-!
# AzureManagedControlPlane admission webhook (exp/api/v1alpha3)

A shallow embedding of `exp/api/v1alpha3/azuremanagedcontrolplane_webhook.go`:
the structural validators (`Validate` and the four `validate*` functions), the
update check (`ValidateUpdate`) and the authentication-profile transition check
(`validateUpdateAadProfile`).

Conventions of the embedding.

* A Go pointer field is an `Option`; `nil` is `none`.
* Dereferencing a nil pointer is a run-time panic.  Functions that dereference
  return `Except Panic α`; `Except.error Panic.nilDereference` is the panic and
  `Except.ok a` is a normal return of `a`.
* A Go `error` result is an `Option`: `none` is the nil error (success).
* `reflect.DeepEqual` on pointers to structs of string pointers is equality of
  the corresponding `Option` values.
-/

namespace V1alpha3

/-! ## Regular expressions (the fragment used by `kubeSemver`) -/

/-- The regular expressions needed for `kubeSemver`: literals,
character ranges, alternation, concatenation and Kleene star. -/
inductive Regex where
  | empty : Regex
  | eps : Regex
  | lit : Char → Regex
  | range : Char → Char → Regex
  | alt : Regex → Regex → Regex
  | seq : Regex → Regex → Regex
  | star : Regex → Regex

namespace Regex

/-- Whether the expression accepts the empty string. -/
def nullable : Regex → Bool
  | empty => false
  | eps => true
  | lit _ => false
  | range _ _ => false
  | alt r s => r.nullable || s.nullable
  | seq r s => r.nullable && s.nullable
  | star _ => true

/-- Brzozowski derivative of an expression by one character. -/
def deriv : Regex → Char → Regex
  | empty, _ => empty
  | eps, _ => empty
  | lit c, a => if a = c then eps else empty
  | range lo hi, a => if lo.toNat ≤ a.toNat ∧ a.toNat ≤ hi.toNat then eps else empty
  | alt r s, a => alt (r.deriv a) (s.deriv a)
  | seq r s, a =>
    if r.nullable then alt (seq (r.deriv a) s) (s.deriv a) else seq (r.deriv a) s
  | star r, a => seq (r.deriv a) (star r)

/-- Whole-input match of a character list (the expression is anchored by
`^` and `$` at both ends). -/
def matchList : Regex → List Char → Bool
  | r, [] => r.nullable
  | r, a :: as => matchList (r.deriv a) as

end Regex

/-- The group `(0|[1-9][0-9]*)` of `kubeSemver`. -/
def kubeSemverNumber : Regex :=
  .alt (.lit '0') (.seq (.range '1' '9') (.star (.range '0' '9')))

/-- The character class `[-0-9a-zA-Z_\.+]` of `kubeSemver`. -/
def kubeSemverSuffixClass : Regex :=
  .alt (.lit '-') (.alt (.range '0' '9') (.alt (.range 'a' 'z') (.alt (.range 'A' 'Z')
    (.alt (.lit '_') (.alt (.lit '.') (.lit '+'))))))

/-- The package-level pattern
`^v(0|[1-9][0-9]*)\.(0|[1-9][0-9]*)\.(0|[1-9][0-9]*)([-0-9a-zA-Z_\.+]*)?$`. -/
def kubeSemver : Regex :=
  .seq (.lit 'v') (.seq kubeSemverNumber (.seq (.lit '.') (.seq kubeSemverNumber
    (.seq (.lit '.') (.seq kubeSemverNumber (.alt (.star kubeSemverSuffixClass) .eps))))))

/-- The call `re.MatchString(s)` for a pattern anchored at both ends. -/
def Regex.MatchString (re : Regex) (s : String) : Bool :=
  re.matchList s.toList

/-! ## Data model -/

/-- Modelled from the spec: the type declaration `ManagedAAD` is not among the
sources.  The webhook dereferences `*aad.Managed` and
`*aad.AdminGroupObjectIDs`, so both fields are pointers; the spec gives
ManagedAuth the members `managed` and `adminGroupObjectIDs`. -/
structure ManagedAAD where
  Managed : Option Bool
  AdminGroupObjectIDs : Option (List String)
  deriving DecidableEq, Repr

/-- Modelled from the spec: the type declaration `LegacyAAD` is not among the
sources.  The spec gives LegacyAuth the four members clientAppID, serverAppID,
serverAppSecret and tenantID; each may be absent. -/
structure LegacyAAD where
  ClientAppID : Option String
  ServerAppID : Option String
  ServerAppSecret : Option String
  TenantID : Option String
  deriving DecidableEq, Repr

/-- Modelled from the spec: the type declaration `AADProfile` is not among the
sources.  The webhook reads the two pointer fields `ManagedAAD` and
`LegacyAAD` and compares each with nil. -/
structure AADProfile where
  ManagedAAD : Option ManagedAAD
  LegacyAAD : Option LegacyAAD
  deriving DecidableEq, Repr

/-- The `v1.LocalObjectReference` of the default pool. -/
structure LocalObjectReference where
  Name : String
  deriving DecidableEq, Repr

/-- Modelled from the spec: the type declaration of the subnet of the virtual
network is not among the sources.  The spec and the defaulting test give it a
name, derived from the object's name when unset. -/
structure ManagedControlPlaneSubnet where
  Name : String
  deriving DecidableEq, Repr

/-- Modelled from the spec: the type declaration of the virtual network is not
among the sources.  The spec and the defaulting test give it a name, derived
from the object's name when unset, and a subnet. -/
structure ManagedControlPlaneVirtualNetwork where
  Name : String
  Subnet : ManagedControlPlaneSubnet
  deriving DecidableEq, Repr

/-- Modelled from the spec: the type declaration `AzureManagedControlPlaneSpec`
is not among the sources.  These are the fields the webhook reads or defaults,
with the pointer fields (compared with nil in the webhook) as options. -/
structure AzureManagedControlPlaneSpec where
  Version : String
  ResourceGroupName : String
  NodeResourceGroupName : String
  SubscriptionID : String
  Location : String
  SSHPublicKey : String
  DNSServiceIP : Option String
  NetworkPlugin : Option String
  NetworkPolicy : Option String
  LoadBalancerSKU : Option String
  DefaultPoolRef : LocalObjectReference
  AADProfile : Option AADProfile
  VirtualNetwork : ManagedControlPlaneVirtualNetwork
  deriving DecidableEq, Repr

/-- The object the webhook receives: its metadata name and its spec. -/
structure AzureManagedControlPlane where
  Name : String
  Spec : AzureManagedControlPlaneSpec
  deriving DecidableEq, Repr

/-! ## Errors -/

/-- Abnormal termination of a Go function. -/
inductive Panic where
  | nilDereference : Panic
  deriving DecidableEq, Repr

/-- Dereference of a pointer: panics on nil. -/
def deref {α : Type} : Option α → Except Panic α
  | some a => .ok a
  | none => .error .nilDereference

/-- The rejected value echoed by `field.Invalid` (an `interface{}` in Go): one
constructor per static type the webhook passes. -/
inductive BadValue where
  | str : String → BadValue
  | strPtr : Option String → BadValue
  | boolPtr : Option Bool → BadValue
  | strSlicePtr : Option (List String) → BadValue
  | aadProfile : Option AADProfile → BadValue
  | managedAAD : Option ManagedAAD → BadValue
  | legacyAAD : Option LegacyAAD → BadValue
  deriving DecidableEq, Repr

/-- A `field.Error` of type `ErrorTypeInvalid`: the path given to
`field.NewPath` (its segments, joined by dots when printed), the rejected value
and the detail message. -/
structure FieldError where
  Field : List String
  BadValue : BadValue
  Detail : String
  deriving DecidableEq, Repr

/-- The constructor `field.Invalid(field.NewPath(path...), value, detail)`. -/
def field.Invalid (path : List String) (value : BadValue) (detail : String) : FieldError :=
  ⟨path, value, detail⟩

/-- An error produced by one validator of `Validate`. -/
inductive ValidatorError where
  /-- The value `errors.New(msg)`. -/
  | errorString : String → ValidatorError
  /-- The aggregate built by `validateSSHKey` from the key checker's errors. -/
  | sshKeyAggregate : List String → ValidatorError
  deriving DecidableEq, Repr

/-- The constructor `errors.New`. -/
def errors.New (msg : String) : ValidatorError := .errorString msg

/-- A non-nil `error` returned by an entry point of the webhook. -/
inductive WebhookError where
  /-- The value `kerrors.NewAggregate(errs)` for non-empty `errs`. -/
  | aggregate : List ValidatorError → WebhookError
  /-- The value `apierrors.NewInvalid(kind, name, allErrs)`. -/
  | invalid : String → List FieldError → WebhookError
  deriving DecidableEq, Repr

/-- The function `kerrors.NewAggregate`: nil for an empty slice. -/
def kerrors.NewAggregate : List ValidatorError → Option WebhookError
  | [] => none
  | e :: es => some (.aggregate (e :: es))

/-- The function `apierrors.NewInvalid` for the kind `AzureManagedControlPlane`. -/
def apierrors.NewInvalid (name : String) (errs : List FieldError) : WebhookError :=
  .invalid name errs

/-- The two format checkers the webhook calls but does not implement. -/
structure Collaborators where
  /-- Whether `net.ParseIP(s)` is non-nil. -/
  ParseIP : String → Bool
  /-- The messages of `infrav1.ValidateSSHKey(key, path).ToAggregate().Errors()`;
  empty when the key is well formed. -/
  ValidateSSHKey : String → List String

/-- Checkers that reject every input; used to evaluate the webhook on objects
that carry neither a DNS service IP nor an SSH key, where no checker is
consulted. -/
def Collaborators.rejectAll : Collaborators :=
  ⟨fun _ => false, fun _ => ["ssh: no key found"]⟩

/-! ## Structural validation -/

namespace AzureManagedControlPlane

/-- The method `validateDNSServiceIP`. -/
def validateDNSServiceIP (c : Collaborators) (r : AzureManagedControlPlane) :
    Option ValidatorError :=
  match r.Spec.DNSServiceIP with
  | some ip =>
    if c.ParseIP ip = false then some (errors.New "DNSServiceIP must be a valid IP") else none
  | none => none

/-- The method `validateVersion`. -/
def validateVersion (r : AzureManagedControlPlane) : Option ValidatorError :=
  if !kubeSemver.MatchString r.Spec.Version then
    some (errors.New "must be a valid semantic version")
  else none

/-- The method `validateSSHKey`. -/
def validateSSHKey (c : Collaborators) (r : AzureManagedControlPlane) :
    Option ValidatorError :=
  if r.Spec.SSHPublicKey ≠ "" then
    let sshKey := r.Spec.SSHPublicKey
    let errs := c.ValidateSSHKey sshKey
    if errs.length > 0 then some (.sshKeyAggregate errs) else none
  else none

/-- The method `validateManagedAadProfile`, called with the (non-nil)
`r.Spec.AADProfile`. -/
def validateManagedAadProfile (profile : AADProfile) :
    Except Panic (Bool × Option ValidatorError) :=
  match profile.ManagedAAD with
  | some aad => do
    let managed ← deref aad.Managed
    let emptyIDs ←
      if managed then (do let ids ← deref aad.AdminGroupObjectIDs; pure (ids.length == 0))
      else pure false
    if managed && emptyIDs then
      pure (false, some (errors.New
        "require atleast one groupObjectID in Spec.AADProfile.ManagedAAD.AdminGroupObjectID"))
    else
      let ids ← deref aad.AdminGroupObjectIDs
      if ids.length != 0 && !managed then
        pure (false, some (errors.New
          "managed field has to be true to enable aad integration with aks"))
      else pure (true, none)
  | none => pure (false, none)

/-- The method `validateLegacyAadProfile`, called with the (non-nil)
`r.Spec.AADProfile`. -/
def validateLegacyAadProfile (profile : AADProfile) : Bool :=
  profile.LegacyAAD.isSome

/-- The method `validateAadProfile`. -/
def validateAadProfile (r : AzureManagedControlPlane) : Except Panic (Option ValidatorError) :=
  match r.Spec.AADProfile with
  | some profile => do
    let (managedAad, err) ← validateManagedAadProfile profile
    match err with
    | some e => pure (some e)
    | none =>
      let legacyAad := validateLegacyAadProfile profile
      if managedAad && legacyAad then
        pure (some (errors.New "conflicting values provided in AADProfile"))
      else pure none
  | none => pure none

/-- The loop of `Validate`: run the validators in order and collect the non-nil
errors. -/
def runValidators : List (Except Panic (Option ValidatorError)) →
    Except Panic (List ValidatorError)
  | [] => pure []
  | validator :: rest => do
    let err ← validator
    let errs ← runValidators rest
    match err with
    | some e => pure (e :: errs)
    | none => pure errs

/-- The method `Validate`. -/
def Validate (c : Collaborators) (r : AzureManagedControlPlane) :
    Except Panic (Option WebhookError) := do
  let validators : List (Except Panic (Option ValidatorError)) :=
    [pure r.validateVersion,
     pure (r.validateDNSServiceIP c),
     pure (r.validateSSHKey c),
     r.validateAadProfile]
  let errs ← runValidators validators
  pure (kerrors.NewAggregate errs)

/-- The method `ValidateCreate`. -/
def ValidateCreate (c : Collaborators) (r : AzureManagedControlPlane) :
    Except Panic (Option WebhookError) :=
  r.Validate c

/-! ## Update validation -/

/-- The method `validateUpdateAadProfile`; `old` is the previous object's
`Spec.AADProfile`. -/
def validateUpdateAadProfile (r : AzureManagedControlPlane) (old : Option AADProfile) :
    Except Panic (List FieldError) := do
  let allErrs : List FieldError := []
  let new := r.Spec.AADProfile
  let allErrs :=
    if old.isSome ∧ new.isNone then
      allErrs ++ [field.Invalid ["Spec", "AADProfile"] (.aadProfile new)
        "field cannot be nil, cannot disable AADProfile"]
    else allErrs
  let allErrs :=
    match old, new with
    | none, some newProfile =>
      match newProfile.LegacyAAD with
      | some legacy =>
        allErrs ++ [field.Invalid ["Spec", "AADProfile", "LegacyAAD"] (.legacyAAD (some legacy))
          "field is immutable"]
      | none => allErrs
    | _, _ => allErrs
  match old, new with
  | some oldProfile, some newProfile =>
    let allErrs :=
      if oldProfile.ManagedAAD.isSome ∧ newProfile.ManagedAAD.isNone then
        allErrs ++ [field.Invalid ["Spec", "AADProfile", "ManagedAAD"]
          (.managedAAD newProfile.ManagedAAD)
          "AADProfile cannot be disabled or migrated to Legacy"]
      else allErrs
    let allErrs ←
      match oldProfile.ManagedAAD, newProfile.ManagedAAD with
      | some _, some newManaged => do
        let managed ← deref newManaged.Managed
        let allErrs :=
          if !managed then
            allErrs ++ [field.Invalid ["Spec", "AADProfile", "ManagedAAD"]
              (.boolPtr newManaged.Managed) "field cannot be set to false"]
          else allErrs
        let ids ← deref newManaged.AdminGroupObjectIDs
        let allErrs :=
          if ids.length = 0 then
            allErrs ++ [field.Invalid ["Spec", "AADProfile", "AdminGroupObjectIDs"]
              (.strSlicePtr newManaged.AdminGroupObjectIDs) "need atleast one AdminGroupObjectID"]
          else allErrs
        pure allErrs
      | _, _ => pure allErrs
    let allErrs :=
      if newProfile.ManagedAAD.isNone then
        if newProfile.LegacyAAD ≠ oldProfile.LegacyAAD then
          allErrs ++ [field.Invalid ["Spec", "AADProfile", "LegacyAAD"]
            (.legacyAAD newProfile.LegacyAAD) "field is immutable"]
        else allErrs
      else allErrs
    pure allErrs
  | _, _ => pure allErrs

/-- The field-by-field comparison at the head of `ValidateUpdate` (everything
before the call of `validateUpdateAadProfile`): the entries appended to
`allErrs`, in order. -/
def immutableFieldErrs (r old : AzureManagedControlPlane) : List FieldError :=
  let allErrs : List FieldError := []
  let allErrs :=
    if r.Spec.SubscriptionID ≠ old.Spec.SubscriptionID then
      allErrs ++ [field.Invalid ["Spec", "SubscriptionID"] (.str r.Spec.SubscriptionID)
        "field is immutable"]
    else allErrs
  let allErrs :=
    if r.Spec.ResourceGroupName ≠ old.Spec.ResourceGroupName then
      allErrs ++ [field.Invalid ["Spec", "ResourceGroupName"] (.str r.Spec.ResourceGroupName)
        "field is immutable"]
    else allErrs
  let allErrs :=
    if r.Spec.NodeResourceGroupName ≠ old.Spec.NodeResourceGroupName then
      allErrs ++ [field.Invalid ["Spec", "NodeResourceGroupName"]
        (.str r.Spec.NodeResourceGroupName) "field is immutable"]
    else allErrs
  let allErrs :=
    if r.Spec.Location ≠ old.Spec.Location then
      allErrs ++ [field.Invalid ["Spec", "Location"] (.str r.Spec.Location)
        "field is immutable"]
    else allErrs
  let allErrs :=
    if old.Spec.SSHPublicKey ≠ "" then
      if r.Spec.SSHPublicKey ≠ old.Spec.SSHPublicKey then
        allErrs ++ [field.Invalid ["Spec", "SSHPublicKey"] (.str r.Spec.SSHPublicKey)
          "field is immutable"]
      else allErrs
    else allErrs
  let allErrs :=
    match old.Spec.DNSServiceIP with
    | some oldValue =>
      match r.Spec.DNSServiceIP with
      | none =>
        allErrs ++ [field.Invalid ["Spec", "DNSServiceIP"] (.strPtr r.Spec.DNSServiceIP)
          "field is immutable, unsetting is not allowed"]
      | some newValue =>
        if newValue ≠ oldValue then
          allErrs ++ [field.Invalid ["Spec", "DNSServiceIP"] (.str newValue)
            "field is immutable"]
        else allErrs
    | none => allErrs
  let allErrs :=
    match old.Spec.NetworkPlugin with
    | some oldValue =>
      match r.Spec.NetworkPlugin with
      | none =>
        allErrs ++ [field.Invalid ["Spec", "NetworkPlugin"] (.strPtr r.Spec.NetworkPlugin)
          "field is immutable, unsetting is not allowed"]
      | some newValue =>
        if newValue ≠ oldValue then
          allErrs ++ [field.Invalid ["Spec", "NetworkPlugin"] (.str newValue)
            "field is immutable"]
        else allErrs
    | none => allErrs
  let allErrs :=
    match old.Spec.NetworkPolicy with
    | some oldValue =>
      match r.Spec.NetworkPolicy with
      | none =>
        allErrs ++ [field.Invalid ["Spec", "NetworkPolicy"] (.strPtr r.Spec.NetworkPolicy)
          "field is immutable, unsetting is not allowed"]
      | some newValue =>
        if newValue ≠ oldValue then
          allErrs ++ [field.Invalid ["Spec", "NetworkPolicy"] (.str newValue)
            "field is immutable"]
        else allErrs
    | none => allErrs
  let allErrs :=
    match old.Spec.LoadBalancerSKU with
    | some oldValue =>
      match r.Spec.LoadBalancerSKU with
      | none =>
        allErrs ++ [field.Invalid ["Spec", "LoadBalancerSKU"] (.strPtr r.Spec.LoadBalancerSKU)
          "field is immutable, unsetting is not allowed"]
      | some newValue =>
        if newValue ≠ oldValue then
          allErrs ++ [field.Invalid ["Spec", "LoadBalancerSKU"] (.str newValue)
            "field is immutable"]
        else allErrs
    | none => allErrs
  let allErrs :=
    if old.Spec.DefaultPoolRef.Name ≠ "" then
      if r.Spec.DefaultPoolRef.Name ≠ old.Spec.DefaultPoolRef.Name then
        allErrs ++ [field.Invalid ["Spec", "DefaultPoolRef", "Name"]
          (.str r.Spec.DefaultPoolRef.Name) "field is immutable"]
      else allErrs
    else allErrs
  allErrs

/-- The method `ValidateUpdate`; `r` is the proposed object and `old` the
persisted one. -/
def ValidateUpdate (c : Collaborators) (r old : AzureManagedControlPlane) :
    Except Panic (Option WebhookError) := do
  let allErrs := immutableFieldErrs r old
  let errs ← r.validateUpdateAadProfile old.Spec.AADProfile
  let allErrs := allErrs ++ errs
  if allErrs.length = 0 then
    r.Validate c
  else
    pure (some (apierrors.NewInvalid r.Name allErrs))

end AzureManagedControlPlane

/-! ## The specification's view of the authentication profile -/

/-- The ManagedAuth of an object: the profile's `ManagedAAD`, absent when the
profile itself is absent. -/
def AzureManagedControlPlane.managedAuth (r : AzureManagedControlPlane) : Option ManagedAAD :=
  match r.Spec.AADProfile with
  | some profile => profile.ManagedAAD
  | none => none

/-- The LegacyAuth of an object: the profile's `LegacyAAD`, absent when the
profile itself is absent. -/
def AzureManagedControlPlane.legacyAuth (r : AzureManagedControlPlane) : Option LegacyAAD :=
  match r.Spec.AADProfile with
  | some profile => profile.LegacyAAD
  | none => none

/-! ## Concrete objects -/

/-- An object with version "v1.18.0" and every other field empty or unset. -/
def exampleUnset : AzureManagedControlPlane :=
  ⟨"", ⟨"v1.18.0", "", "", "", "", "", none, none, none, none, ⟨""⟩, none, ⟨"", ⟨""⟩⟩⟩⟩

/-- A LegacyAuth with all four fields present. -/
def exampleLegacyAAD : LegacyAAD :=
  ⟨some "959d77a8-5db7-4c98-b856-b34619afg75h", some "967077a8-5db7-4c98-b856-b34619afg75h",
   some "286******************", some "678977a8-5db7-4c98-b856-b34619afg75h"⟩

/-- A LegacyAuth in which only the client application ID and the tenant ID are present. -/
def exampleIncompleteLegacyAAD : LegacyAAD :=
  ⟨some "959d77a8-5db7-4c98-b856-b34619afg75h", none, none,
   some "678977a8-5db7-4c98-b856-b34619afg75h"⟩

/-- A consistent ManagedAuth: managed with one administrator group. -/
def exampleManagedAAD : ManagedAAD :=
  ⟨some true, some ["616077a8-5db7-4c98-b856-b34619afg75h"]⟩

/-- The object `exampleUnset` with the given authentication profile. -/
def exampleWithProfile (profile : AADProfile) : AzureManagedControlPlane :=
  { exampleUnset with Spec.AADProfile := some profile }

/-- The object `exampleUnset` with a complete LegacyAuth and no ManagedAuth. -/
def exampleLegacy : AzureManagedControlPlane :=
  exampleWithProfile ⟨none, some exampleLegacyAAD⟩

/-- The object `exampleUnset` with a consistent ManagedAuth and no LegacyAuth. -/
def exampleManaged : AzureManagedControlPlane :=
  exampleWithProfile ⟨some exampleManagedAAD, none⟩

/-- The object `exampleUnset` in location "westeurope". -/
def exampleWestEurope : AzureManagedControlPlane :=
  { exampleUnset with Spec.Location := "westeurope" }

/-- An object in location "eastus" whose version "honk" is not a semantic version. -/
def exampleEastUsBadVersion : AzureManagedControlPlane :=
  { exampleUnset with Spec.Location := "eastus", Spec.Version := "honk" }

/-- The entry list of the comparison of one identity field: one entry when the
new value differs from the old one. -/
def identityFieldErrs (path : List String) (new old : String) : List FieldError :=
  if new ≠ old then [field.Invalid path (.str new) "field is immutable"] else []

/-- The entry list of the comparison of one string field that is immutable once
non-empty (SSH public key, pool reference name). -/
def stickyStringErrs (path : List String) (new old : String) : List FieldError :=
  if old ≠ "" then
    if new ≠ old then [field.Invalid path (.str new) "field is immutable"] else []
  else []

/-- The entry list of the comparison of one optional field that is immutable
once set (DNS service IP, network plugin, network policy, load-balancer SKU). -/
def stickyFieldErrs (path : List String) (new old : Option String) : List FieldError :=
  match old with
  | some oldValue =>
    match new with
    | none => [field.Invalid path (.strPtr none) "field is immutable, unsetting is not allowed"]
    | some newValue =>
      if newValue ≠ oldValue then [field.Invalid path (.str newValue) "field is immutable"]
      else []
  | none => []

/-- The ManagedAuth of an object is enabled: populated, with the managed flag
true and a non-empty admin-ID list. -/
def AzureManagedControlPlane.managedEnabled (r : AzureManagedControlPlane) : Prop :=
  ∃ ids, ids ≠ [] ∧ r.managedAuth = some ⟨some true, some ids⟩

/-- One accepted update: `ValidateUpdate` on the proposed object `new` against
the persisted object `old` returns the nil error. -/
def AcceptedUpdate (c : Collaborators) (old new : AzureManagedControlPlane) : Prop :=
  new.ValidateUpdate c old = .ok none

/-- The object `exampleUnset` with a profile that is present but empty. -/
def exampleEmptyProfile : AzureManagedControlPlane :=
  exampleWithProfile ⟨none, none⟩

/-- The object `exampleUnset` with a ManagedAuth that is consistent but
disabled: managed false and an empty admin-ID list. -/
def exampleManagedDisabled : AzureManagedControlPlane :=
  exampleWithProfile ⟨some ⟨some false, some []⟩, none⟩

/-- Checkers that accept every input; used to evaluate the webhook where the
verdict of the checkers is taken to be favourable. -/
def Collaborators.acceptAll : Collaborators :=
  ⟨fun _ => true, fun _ => []⟩

/-- The object `exampleUnset` with a ManagedAuth whose managed flag is absent
and whose admin-ID list has one entry. -/
def exampleManagedNoFlag : AzureManagedControlPlane :=
  exampleWithProfile ⟨some ⟨none, some ["616077a8-5db7-4c98-b856-b34619afg75h"]⟩, none⟩

/-- The object `exampleManaged` in location "westeurope". -/
def exampleManagedWestEurope : AzureManagedControlPlane :=
  { exampleManaged with Spec.Location := "westeurope" }

/-- The object `exampleManagedNoFlag` in location "eastus". -/
def exampleManagedNoFlagEastUs : AzureManagedControlPlane :=
  { exampleManagedNoFlag with Spec.Location := "eastus" }

/-- The object `exampleManaged` with the DNS service IP "192.168.0.0". -/
def exampleManagedWithDNS : AzureManagedControlPlane :=
  { exampleManaged with Spec.DNSServiceIP := some "192.168.0.0" }

/-- The object `exampleManagedDisabled` with the network plugin "azure". -/
def exampleManagedDisabledAzure : AzureManagedControlPlane :=
  { exampleManagedDisabled with Spec.NetworkPlugin := some "azure" }

/-- The object `exampleManagedDisabled` with an SSH public key. -/
def exampleManagedDisabledWithKey : AzureManagedControlPlane :=
  { exampleManagedDisabled with Spec.SSHPublicKey := "ssh-rsa AAAAB3NzaC1yc2E" }

/-- The object `exampleManaged` with the network plugin "azure". -/
def exampleManagedAzure : AzureManagedControlPlane :=
  { exampleManaged with Spec.NetworkPlugin := some "azure" }

/-- The object `exampleManaged` with an SSH public key. -/
def exampleManagedWithKey : AzureManagedControlPlane :=
  { exampleManaged with Spec.SSHPublicKey := "ssh-rsa AAAAB3NzaC1yc2E" }

/-! ## The documented form of a version -/

/-- The documented form, digits: a decimal digit `0` to `9`. -/
def IsDecimalDigit (c : Char) : Prop :=
  '0'.toNat ≤ c.toNat ∧ c.toNat ≤ '9'.toNat

/-- The documented form, numbers: MAJOR, MINOR and PATCH are each "0" or a
decimal numeral not starting with 0. -/
def IsVersionNumber (n : List Char) : Prop :=
  n = ['0'] ∨
  ∃ first rest, n = first :: rest ∧ ('1'.toNat ≤ first.toNat ∧ first.toNat ≤ '9'.toNat) ∧
    ∀ c ∈ rest, IsDecimalDigit c

/-- The documented form, suffix: the characters `-`, `0-9`, `A-Z`, `a-z`, `_`,
`.` and `+`. -/
def IsVersionSuffixChar (c : Char) : Prop :=
  c = '-' ∨ IsDecimalDigit c ∨ ('A'.toNat ≤ c.toNat ∧ c.toNat ≤ 'Z'.toNat) ∨
    ('a'.toNat ≤ c.toNat ∧ c.toNat ≤ 'z'.toNat) ∨ c = '_' ∨ c = '.' ∨ c = '+'

/-- The documented form of a version: the string as a whole is
`v` MAJOR `.` MINOR `.` PATCH SUFFIX, with a possibly empty SUFFIX. -/
def HasVersionForm (s : String) : Prop :=
  ∃ major minor patch suffix : List Char,
    s.toList = 'v' :: (major ++ '.' :: (minor ++ '.' :: (patch ++ suffix))) ∧
    IsVersionNumber major ∧ IsVersionNumber minor ∧ IsVersionNumber patch ∧
    ∀ c ∈ suffix, IsVersionSuffixChar c

/-! ## Defaulting -/

/-- The function `strings.HasPrefix`, on strings of Unicode characters. -/
def strings.HasPrefix (s start : String) : Bool :=
  start.toList.isPrefixOf s.toList

namespace AzureManagedControlPlane

/-- Modelled from the spec: the method `setDefaultSSHPublicKey` is not among
the sources.  If the SSH public key is empty it generates a key pair, best
effort: `generated` is the outcome of the generation, the public key or `none`
when generation fails; on failure the key stays empty and the error is
returned.  The second component is whether an error is returned. -/
def setDefaultSSHPublicKey (generated : Option String) (r : AzureManagedControlPlane) :
    AzureManagedControlPlane × Bool :=
  if r.Spec.SSHPublicKey = "" then
    match generated with
    | some publicKey => ({ r with Spec.SSHPublicKey := publicKey }, false)
    | none => (r, true)
  else (r, false)

/-- Modelled from the spec: the method `setDefaultNodeResourceGroupName` is not
among the sources.  If the node resource group name is unset it is derived as
`MC_<resourceGroup>_<name>_<location>`. -/
def setDefaultNodeResourceGroupName (r : AzureManagedControlPlane) : AzureManagedControlPlane :=
  if r.Spec.NodeResourceGroupName = "" then
    { r with Spec.NodeResourceGroupName :=
        "MC_" ++ r.Spec.ResourceGroupName ++ "_" ++ r.Name ++ "_" ++ r.Spec.Location }
  else r

/-- Modelled from the spec: the method `setDefaultVirtualNetwork` is not among
the sources.  If the virtual network name is unset it is derived from the
object's name. -/
def setDefaultVirtualNetwork (r : AzureManagedControlPlane) : AzureManagedControlPlane :=
  if r.Spec.VirtualNetwork.Name = "" then
    { r with Spec.VirtualNetwork.Name := r.Name }
  else r

/-- Modelled from the spec: the method `setDefaultSubnet` is not among the
sources.  If the subnet name is unset it is derived from the object's name. -/
def setDefaultSubnet (r : AzureManagedControlPlane) : AzureManagedControlPlane :=
  if r.Spec.VirtualNetwork.Subnet.Name = "" then
    { r with Spec.VirtualNetwork.Subnet.Name := r.Name }
  else r

/-- The method `Default`; `generated` is the outcome of the key-pair generation
inside `setDefaultSSHPublicKey`.  The error of `setDefaultSSHPublicKey` is only
logged. -/
def Default (generated : Option String) (r : AzureManagedControlPlane) :
    AzureManagedControlPlane :=
  let r :=
    if r.Spec.NetworkPlugin = none then
      let networkPlugin := "azure"
      { r with Spec.NetworkPlugin := some networkPlugin }
    else r
  let r :=
    if r.Spec.LoadBalancerSKU = none then
      let loadBalancerSKU := "Standard"
      { r with Spec.LoadBalancerSKU := some loadBalancerSKU }
    else r
  let r :=
    if r.Spec.NetworkPolicy = none then
      let networkPolicy := "calico"
      { r with Spec.NetworkPolicy := some networkPolicy }
    else r
  let r :=
    if r.Spec.Version ≠ "" ∧ ! strings.HasPrefix r.Spec.Version "v" then
      let normalizedVersion := "v" ++ r.Spec.Version
      { r with Spec.Version := normalizedVersion }
    else r
  let (r, _err) := r.setDefaultSSHPublicKey generated
  let r := r.setDefaultNodeResourceGroupName
  let r := r.setDefaultVirtualNetwork
  let r := r.setDefaultSubnet
  r

end AzureManagedControlPlane

/-! ## IP literals -/

/-- The fields of an input separated by the character `sep`. -/
def splitOnChar (sep : Char) : List Char → List (List Char)
  | [] => [[]]
  | c :: cs =>
    if c = sep then [] :: splitOnChar sep cs
    else
      match splitOnChar sep cs with
      | [] => [[c]]
      | field :: fields => (c :: field) :: fields

/-- A decimal digit `0` to `9`. -/
def isDecimalDigitChar (c : Char) : Bool :=
  decide ('0'.toNat ≤ c.toNat ∧ c.toNat ≤ '9'.toNat)

/-- A hexadecimal digit. -/
def isHexDigitChar (c : Char) : Bool :=
  isDecimalDigitChar c || decide ('a'.toNat ≤ c.toNat ∧ c.toNat ≤ 'f'.toNat) ||
    decide ('A'.toNat ≤ c.toNat ∧ c.toNat ≤ 'F'.toNat)

/-- The value of a sequence of decimal digits. -/
def decimalValue (cs : List Char) : Nat :=
  cs.foldl (fun n c => 10 * n + (c.toNat - '0'.toNat)) 0

/-- One field of a dotted-decimal address: one to three decimal digits with
value at most 255. -/
def isIPv4Octet (cs : List Char) : Bool :=
  decide (1 ≤ cs.length ∧ cs.length ≤ 3) && cs.all isDecimalDigitChar &&
    decide (decimalValue cs ≤ 255)

/-- An IPv4 literal: four octets separated by full stops. -/
def isIPv4Literal (cs : List Char) : Bool :=
  match splitOnChar '.' cs with
  | [a, b, c, d] => isIPv4Octet a && isIPv4Octet b && isIPv4Octet c && isIPv4Octet d
  | _ => false

/-- One group of an IPv6 literal: one to four hexadecimal digits. -/
def isIPv6Group (cs : List Char) : Bool :=
  decide (1 ≤ cs.length ∧ cs.length ≤ 4) && cs.all isHexDigitChar

/-- The number of 16-bit groups denoted by colon-separated fields, the last of
which may be an IPv4 literal (two groups); `none` when a field is malformed. -/
def ipv6GroupCount : List (List Char) → Option Nat
  | [] => some 0
  | [last] =>
    if isIPv6Group last then some 1 else if isIPv4Literal last then some 2 else none
  | group :: rest =>
    if isIPv6Group group then (ipv6GroupCount rest).map (· + 1) else none

/-- The parts before and after the first `::` of an input, if it has one. -/
def splitAtDoubleColon : List Char → Option (List Char × List Char)
  | [] => none
  | c :: cs =>
    match c, cs with
    | ':', ':' :: rest => some ([], rest)
    | _, _ => (splitAtDoubleColon cs).map (fun parts => (c :: parts.1, parts.2))

/-- The number of groups of one side of a `::`: zero for an empty side. -/
def ipv6SideCount (allowIPv4 : Bool) (cs : List Char) : Option Nat :=
  if cs = [] then some 0
  else if allowIPv4 then ipv6GroupCount (splitOnChar ':' cs)
  else if (splitOnChar ':' cs).all isIPv6Group then some (splitOnChar ':' cs).length
  else none

/-- An IPv6 literal: eight groups separated by colons, where one run of zero
groups (at least one group) may be written `::` and the last two groups may be
written as an IPv4 literal. -/
def isIPv6Literal (cs : List Char) : Bool :=
  match splitAtDoubleColon cs with
  | none => ipv6GroupCount (splitOnChar ':' cs) == some 8
  | some (left, right) =>
    match ipv6SideCount false left, ipv6SideCount true right with
    | some n, some m => decide (n + m ≤ 7)
    | _, _ => false

/-- Modelled from the spec: the library function `net.ParseIP` is not among
the sources.  The spec asks that the DNS service IP "parse as a valid IP
literal (v4 or v6)"; the result here is whether the parse succeeds. -/
def net.ParseIP (s : String) : Bool :=
  isIPv4Literal s.toList || isIPv6Literal s.toList

/-- The IP checker `net.ParseIP` together with a key checker that accepts
every key. -/
def Collaborators.withParseIP : Collaborators :=
  ⟨net.ParseIP, fun _ => []⟩

/-! ## The steps of `Default` -/

namespace AzureManagedControlPlane

/-- The first step of `Default`: the network plugin. -/
def defaultNetworkPlugin (r : AzureManagedControlPlane) : AzureManagedControlPlane :=
  if r.Spec.NetworkPlugin = none then { r with Spec.NetworkPlugin := some "azure" } else r

/-- The second step of `Default`: the load-balancer SKU. -/
def defaultLoadBalancerSKU (r : AzureManagedControlPlane) : AzureManagedControlPlane :=
  if r.Spec.LoadBalancerSKU = none then { r with Spec.LoadBalancerSKU := some "Standard" } else r

/-- The third step of `Default`: the network policy. -/
def defaultNetworkPolicy (r : AzureManagedControlPlane) : AzureManagedControlPlane :=
  if r.Spec.NetworkPolicy = none then { r with Spec.NetworkPolicy := some "calico" } else r

/-- The fourth step of `Default`: the version. -/
def defaultVersion (r : AzureManagedControlPlane) : AzureManagedControlPlane :=
  if r.Spec.Version ≠ "" ∧ ! strings.HasPrefix r.Spec.Version "v" then
    { r with Spec.Version := "v" ++ r.Spec.Version }
  else r

end AzureManagedControlPlane

/-- The object `exampleUnset` with the DNS service IP "192.168.0.0". -/
def exampleWithDNS : AzureManagedControlPlane :=
  { exampleUnset with Spec.DNSServiceIP := some "192.168.0.0" }

/-- An object whose version "honk" is not a semantic version and whose
ManagedAuth has the managed flag true and no admin-ID list. -/
def exampleBadVersionNoList : AzureManagedControlPlane :=
  { exampleWithProfile ⟨some ⟨some true, none⟩, none⟩ with Spec.Version := "honk" }

/-- The object of the defaulting test: name "fooName", resource group "fooRg",
location "fooLocation", version "1.17.5", every other field empty or unset. -/
def exampleFoo : AzureManagedControlPlane :=
  { exampleUnset with
    Name := "fooName", Spec.ResourceGroupName := "fooRg", Spec.Location := "fooLocation",
    Spec.Version := "1.17.5" }

/-- The object `exampleUnset` with a ManagedAuth whose managed flag is true and
whose admin-ID list is absent. -/
def exampleManagedNoList : AzureManagedControlPlane :=
  exampleWithProfile ⟨some ⟨some true, none⟩, none⟩

/-- The object `exampleManaged` with another administrator group in place of
its own. -/
def exampleManagedOtherGroup : AzureManagedControlPlane :=
  exampleWithProfile ⟨some ⟨some true, some ["727077a8-5db7-4c98-b856-b34619afg75h"]⟩, none⟩

/-- The object `exampleUnset` with the version "v1.2.03", whose patch number
has a leading zero. -/
def exampleLeadingZeroPatch : AzureManagedControlPlane :=
  { exampleUnset with Spec.Version := "v1.2.03" }

open AzureManagedControlPlane

/-! ## Auxiliary lemmas -/

/-- The result of `Validate` when the profile validator returns normally: the
aggregate of the four validator results, in order. -/
theorem Validate_eq_of_aad (c : Collaborators) (r : AzureManagedControlPlane)
    (e : Option ValidatorError) (h : r.validateAadProfile = .ok e) :
    r.Validate c = .ok (kerrors.NewAggregate
      (r.validateVersion.toList ++ (r.validateDNSServiceIP c).toList ++
        (r.validateSSHKey c).toList ++ e.toList)) := by
  cases hv : r.validateVersion <;> cases hd : r.validateDNSServiceIP c <;>
    cases hs : r.validateSSHKey c <;> cases e <;>
    simp [AzureManagedControlPlane.Validate, AzureManagedControlPlane.runValidators, h, hv, hd,
      hs, bind, Except.bind, pure, Except.pure]

/-- A panic of the profile validator is a panic of `Validate`. -/
theorem Validate_eq_of_aad_panic (c : Collaborators) (r : AzureManagedControlPlane)
    (p : Panic) (h : r.validateAadProfile = .error p) :
    r.Validate c = .error p := by
  cases hv : r.validateVersion <;> cases hd : r.validateDNSServiceIP c <;>
    cases hs : r.validateSSHKey c <;>
    simp [AzureManagedControlPlane.Validate, AzureManagedControlPlane.runValidators, h, hv, hd,
      hs, bind, Except.bind, pure, Except.pure]

/-- The aggregate is nil exactly for the empty list. -/
theorem NewAggregate_eq_none_iff (errs : List ValidatorError) :
    kerrors.NewAggregate errs = none ↔ errs = [] := by
  cases errs <;> simp [kerrors.NewAggregate]

/-- The method `Validate` succeeds exactly when each of the four validators
returns nil. -/
theorem Validate_ok_none_iff (c : Collaborators) (r : AzureManagedControlPlane) :
    r.Validate c = .ok none ↔
      r.validateVersion = none ∧ r.validateDNSServiceIP c = none ∧
        r.validateSSHKey c = none ∧ r.validateAadProfile = .ok none := by
  cases h : r.validateAadProfile with
  | error p => simp [Validate_eq_of_aad_panic c r p h]
  | ok e =>
    rw [Validate_eq_of_aad c r e h]
    cases hv : r.validateVersion <;> cases hd : r.validateDNSServiceIP c <;>
      cases hs : r.validateSSHKey c <;> cases e <;> simp [kerrors.NewAggregate]

/-! ## Unset to Legacy (C1) -/

/-- C1, counterexample: the old object has no authentication profile, the new
object equals it except for a complete LegacyAuth and passes `Validate`, and
`ValidateUpdate` nevertheless returns an error: the entry "field is immutable"
for `Spec.AADProfile.LegacyAAD`. -/
theorem unset_to_legacy_counterexample :
    exampleUnset.Spec.AADProfile = none ∧
    exampleLegacy = { exampleUnset with Spec.AADProfile := some ⟨none, some exampleLegacyAAD⟩ } ∧
    exampleLegacy.Validate .rejectAll = .ok none ∧
    exampleLegacy.ValidateUpdate .rejectAll exampleUnset =
      .ok (some (.invalid ""
        [⟨["Spec", "AADProfile", "LegacyAAD"], .legacyAAD (some exampleLegacyAAD),
          "field is immutable"⟩])) :=
  ⟨rfl, rfl, rfl, rfl⟩

/-- C1, amended: an update from an absent authentication profile to a profile
that carries a LegacyAuth is rejected.  `ValidateUpdate` returns the invalid
error whose entries are the immutability entries followed by the entry
"field is immutable" for `Spec.AADProfile.LegacyAAD`. -/
theorem unset_to_legacy_rejected (c : Collaborators) (r old : AzureManagedControlPlane)
    (profile : AADProfile) (legacy : LegacyAAD)
    (hold : old.Spec.AADProfile = none) (hnew : r.Spec.AADProfile = some profile)
    (hlegacy : profile.LegacyAAD = some legacy) :
    r.ValidateUpdate c old = .ok (some (.invalid r.Name
      (r.immutableFieldErrs old ++
        [field.Invalid ["Spec", "AADProfile", "LegacyAAD"] (.legacyAAD (some legacy))
          "field is immutable"]))) := by
  simp [AzureManagedControlPlane.ValidateUpdate, AzureManagedControlPlane.validateUpdateAadProfile,
    hold, hnew, hlegacy, apierrors.NewInvalid, bind, Except.bind, pure, Except.pure]

/-- C1, witness of the amended statement at the update of the counterexample. -/
theorem unset_to_legacy_rejected_witness :
    exampleUnset.Spec.AADProfile = none ∧
    exampleLegacy.Spec.AADProfile = some ⟨none, some exampleLegacyAAD⟩ ∧
    (⟨none, some exampleLegacyAAD⟩ : AADProfile).LegacyAAD = some exampleLegacyAAD ∧
    exampleLegacy.ValidateUpdate .rejectAll exampleUnset = .ok (some (.invalid exampleLegacy.Name
      (exampleLegacy.immutableFieldErrs exampleUnset ++
        [field.Invalid ["Spec", "AADProfile", "LegacyAAD"] (.legacyAAD (some exampleLegacyAAD))
          "field is immutable"]))) :=
  ⟨rfl, rfl, rfl,
    unset_to_legacy_rejected .rejectAll exampleLegacy exampleUnset _ exampleLegacyAAD rfl rfl rfl⟩

/-! ## Aggregation in ValidateUpdate (C2) -/

/-- C2, counterexample: the new object changes the location and has an invalid
version.  `Validate` on the new object reports the version error, but
`ValidateUpdate` reports the location entry only. -/
theorem update_short_circuit_counterexample :
    exampleEastUsBadVersion.Validate .rejectAll =
      .ok (some (.aggregate [.errorString "must be a valid semantic version"])) ∧
    exampleEastUsBadVersion.ValidateUpdate .rejectAll exampleWestEurope =
      .ok (some (.invalid "" [⟨["Spec", "Location"], .str "eastus", "field is immutable"⟩])) :=
  ⟨rfl, rfl⟩

/-- C2, amended: `ValidateUpdate` runs the field validators only when the
update checks found nothing.  When the immutability entries followed by the
profile-transition entries are a non-empty list, that list alone is reported;
when it is empty, the result is that of `Validate` on the new object. -/
theorem update_reports_update_checks_first (c : Collaborators)
    (r old : AzureManagedControlPlane) (errs : List FieldError)
    (h : r.validateUpdateAadProfile old.Spec.AADProfile = .ok errs) :
    (r.immutableFieldErrs old ++ errs ≠ [] →
      r.ValidateUpdate c old =
        .ok (some (.invalid r.Name (r.immutableFieldErrs old ++ errs)))) ∧
    (r.immutableFieldErrs old ++ errs = [] → r.ValidateUpdate c old = r.Validate c) := by
  constructor
  · intro hne
    have hlen : ¬ (r.immutableFieldErrs old ++ errs).length = 0 := by
      simpa [List.length_eq_zero] using hne
    simp only [AzureManagedControlPlane.ValidateUpdate, h, bind, Except.bind]
    rw [if_neg hlen]
    rfl
  · intro he
    have hlen : (r.immutableFieldErrs old ++ errs).length = 0 := by
      simp [he]
    simp only [AzureManagedControlPlane.ValidateUpdate, h, bind, Except.bind]
    rw [if_pos hlen]

/-- C2, witness of the amended statement at the update of the counterexample. -/
theorem update_reports_update_checks_first_witness :
    exampleEastUsBadVersion.validateUpdateAadProfile exampleWestEurope.Spec.AADProfile = .ok [] ∧
    ((exampleEastUsBadVersion.immutableFieldErrs exampleWestEurope ++ [] ≠ [] →
      exampleEastUsBadVersion.ValidateUpdate .rejectAll exampleWestEurope =
        .ok (some (.invalid exampleEastUsBadVersion.Name
          (exampleEastUsBadVersion.immutableFieldErrs exampleWestEurope ++ [])))) ∧
    (exampleEastUsBadVersion.immutableFieldErrs exampleWestEurope ++ [] = [] →
      exampleEastUsBadVersion.ValidateUpdate .rejectAll exampleWestEurope =
        exampleEastUsBadVersion.Validate .rejectAll)) :=
  ⟨rfl, update_reports_update_checks_first .rejectAll exampleEastUsBadVersion exampleWestEurope []
    rfl⟩

/-! ## Completeness of LegacyAuth (C3) -/

/-- C3, counterexample: a LegacyAuth with the server application ID and secret
missing is accepted by `Validate` and by `ValidateCreate`. -/
theorem incomplete_legacy_counterexample :
    exampleIncompleteLegacyAAD.ServerAppID = none ∧
    (exampleWithProfile ⟨none, some exampleIncompleteLegacyAAD⟩).Validate .rejectAll = .ok none ∧
    (exampleWithProfile ⟨none, some exampleIncompleteLegacyAAD⟩).ValidateCreate .rejectAll =
      .ok none :=
  ⟨rfl, rfl, rfl⟩

/-- C3, amended: `Validate` does not look inside a LegacyAuth.  For an object
whose profile has no ManagedAuth (so at most a LegacyAuth, complete or not) the
authentication-profile validator reports nothing, and `Validate` and
`ValidateCreate` succeed exactly when the version, DNS service IP and SSH key
validators report nothing. -/
theorem legacy_only_profile_not_inspected (c : Collaborators) (r : AzureManagedControlPlane)
    (profile : AADProfile) (hp : r.Spec.AADProfile = some profile)
    (hm : profile.ManagedAAD = none) :
    r.validateAadProfile = .ok none ∧
    (r.Validate c = .ok none ↔
      r.validateVersion = none ∧ r.validateDNSServiceIP c = none ∧ r.validateSSHKey c = none) ∧
    r.ValidateCreate c = r.Validate c := by
  have haad : r.validateAadProfile = .ok none := by
    simp [AzureManagedControlPlane.validateAadProfile,
      AzureManagedControlPlane.validateManagedAadProfile, hp, hm, bind, Except.bind, pure,
      Except.pure]
  refine ⟨haad, ?_, rfl⟩
  rw [Validate_ok_none_iff, haad]
  simp

/-- C3, witness of the amended statement at the object of the counterexample. -/
theorem legacy_only_profile_not_inspected_witness :
    (exampleWithProfile ⟨none, some exampleIncompleteLegacyAAD⟩).Spec.AADProfile =
      some ⟨none, some exampleIncompleteLegacyAAD⟩ ∧
    (⟨none, some exampleIncompleteLegacyAAD⟩ : AADProfile).ManagedAAD = none ∧
    ((exampleWithProfile ⟨none, some exampleIncompleteLegacyAAD⟩).validateAadProfile = .ok none ∧
    ((exampleWithProfile ⟨none, some exampleIncompleteLegacyAAD⟩).Validate .rejectAll = .ok none ↔
      (exampleWithProfile ⟨none, some exampleIncompleteLegacyAAD⟩).validateVersion = none ∧
      (exampleWithProfile ⟨none, some exampleIncompleteLegacyAAD⟩).validateDNSServiceIP .rejectAll
        = none ∧
      (exampleWithProfile ⟨none, some exampleIncompleteLegacyAAD⟩).validateSSHKey .rejectAll
        = none) ∧
    (exampleWithProfile ⟨none, some exampleIncompleteLegacyAAD⟩).ValidateCreate .rejectAll =
      (exampleWithProfile ⟨none, some exampleIncompleteLegacyAAD⟩).Validate .rejectAll) :=
  ⟨rfl, rfl, legacy_only_profile_not_inspected .rejectAll _ _ rfl rfl⟩

/-! ## Partially filled ManagedAuth (C4) -/

/-- C4, the code at the failing inputs: with `managed = true` and the admin-ID
list absent, and with a non-empty admin-ID list and the managed flag absent,
`Validate` does not return an error but panics on the nil dereference. -/
theorem incomplete_managed_panics :
    (exampleWithProfile ⟨some ⟨some true, none⟩, none⟩).Validate .rejectAll =
      .error .nilDereference ∧
    (exampleWithProfile
      ⟨some ⟨none, some ["616077a8-5db7-4c98-b856-b34619afg75h"]⟩, none⟩).Validate .rejectAll =
      .error .nilDereference :=
  ⟨rfl, rfl⟩

/-! ## Managed flag and admin-ID list (C5) -/

/-- C5: for an object with a valid version, no DNS service IP, no SSH key, no
LegacyAuth and a ManagedAuth whose managed flag and admin-ID list are both
present, `Validate` succeeds if and only if the managed flag is true exactly
when the admin-ID list is non-empty. -/
theorem managed_flag_matches_admin_ids (c : Collaborators) (r : AzureManagedControlPlane)
    (profile : AADProfile) (managed : Bool) (ids : List String)
    (hversion : kubeSemver.MatchString r.Spec.Version = true)
    (hdns : r.Spec.DNSServiceIP = none) (hssh : r.Spec.SSHPublicKey = "")
    (hp : r.Spec.AADProfile = some profile) (hlegacy : profile.LegacyAAD = none)
    (hmanaged : profile.ManagedAAD = some ⟨some managed, some ids⟩) :
    r.Validate c = .ok none ↔ (managed = true ↔ ids ≠ []) := by
  rw [Validate_ok_none_iff]
  cases managed <;> cases ids <;>
    simp [AzureManagedControlPlane.validateVersion, AzureManagedControlPlane.validateDNSServiceIP,
      AzureManagedControlPlane.validateSSHKey, AzureManagedControlPlane.validateAadProfile,
      AzureManagedControlPlane.validateManagedAadProfile,
      AzureManagedControlPlane.validateLegacyAadProfile, hversion, hdns, hssh, hp, hlegacy,
      hmanaged, deref, errors.New, bind, Except.bind, pure, Except.pure]

/-- C5, witness: the consistent ManagedAuth of `exampleManaged`. -/
theorem managed_flag_matches_admin_ids_witness :
    kubeSemver.MatchString exampleManaged.Spec.Version = true ∧
    exampleManaged.Spec.DNSServiceIP = none ∧
    exampleManaged.Spec.SSHPublicKey = "" ∧
    exampleManaged.Spec.AADProfile = some ⟨some exampleManagedAAD, none⟩ ∧
    (⟨some exampleManagedAAD, none⟩ : AADProfile).LegacyAAD = none ∧
    (⟨some exampleManagedAAD, none⟩ : AADProfile).ManagedAAD =
      some ⟨some true, some ["616077a8-5db7-4c98-b856-b34619afg75h"]⟩ ∧
    (exampleManaged.Validate .rejectAll = .ok none ↔
      (true = true ↔ ["616077a8-5db7-4c98-b856-b34619afg75h"] ≠ [])) :=
  ⟨by decide, rfl, rfl, rfl, rfl, rfl,
    managed_flag_matches_admin_ids .rejectAll exampleManaged _ true _ (by decide) rfl rfl rfl
      rfl rfl⟩

/-! ## Both modes populated (C6) -/

/-- C6, counterexample: LegacyAuth and ManagedAuth are both populated and the
ManagedAuth has `managed = true` with an empty admin-ID list.  `Validate`
fails, but the one failure it reports, the result of the profile validator, is
the missing-group error and not "conflicting values provided in AADProfile". -/
theorem conflict_error_counterexample :
    (exampleWithProfile ⟨some ⟨some true, some []⟩, some exampleLegacyAAD⟩).Validate .rejectAll =
      .ok (some (.aggregate [.errorString
        "require atleast one groupObjectID in Spec.AADProfile.ManagedAAD.AdminGroupObjectID"])) ∧
    (exampleWithProfile
      ⟨some ⟨some true, some []⟩, some exampleLegacyAAD⟩).validateAadProfile =
      .ok (some (.errorString
        "require atleast one groupObjectID in Spec.AADProfile.ManagedAAD.AdminGroupObjectID")) :=
  ⟨rfl, rfl⟩

/-- C6, amended: for an object in which LegacyAuth and ManagedAuth are both
populated, with the managed flag and the admin-ID list present, `Validate`
fails.  The failure reported for the profile is the ManagedAuth consistency
error when the ManagedAuth is inconsistent (missing-group error for
`managed = true` with an empty list, managed-must-be-true error for
`managed = false` with a non-empty list) and the conflict error otherwise. -/
theorem both_populated_rejected (c : Collaborators) (r : AzureManagedControlPlane)
    (profile : AADProfile) (legacy : LegacyAAD) (managed : Bool) (ids : List String)
    (hp : r.Spec.AADProfile = some profile) (hlegacy : profile.LegacyAAD = some legacy)
    (hmanaged : profile.ManagedAAD = some ⟨some managed, some ids⟩) :
    r.validateAadProfile = .ok (some (
      if managed = true ∧ ids = [] then
        .errorString
          "require atleast one groupObjectID in Spec.AADProfile.ManagedAAD.AdminGroupObjectID"
      else if managed = false ∧ ids ≠ [] then
        .errorString "managed field has to be true to enable aad integration with aks"
      else .errorString "conflicting values provided in AADProfile")) ∧
    ∃ e, r.Validate c = .ok (some e) := by
  have haad : r.validateAadProfile = .ok (some (
      if managed = true ∧ ids = [] then
        .errorString
          "require atleast one groupObjectID in Spec.AADProfile.ManagedAAD.AdminGroupObjectID"
      else if managed = false ∧ ids ≠ [] then
        .errorString "managed field has to be true to enable aad integration with aks"
      else .errorString "conflicting values provided in AADProfile")) := by
    cases managed <;> cases ids <;>
      simp [AzureManagedControlPlane.validateAadProfile,
        AzureManagedControlPlane.validateManagedAadProfile,
        AzureManagedControlPlane.validateLegacyAadProfile, hp, hlegacy, hmanaged, deref,
        errors.New, bind, Except.bind, pure, Except.pure]
  refine ⟨haad, ?_⟩
  rw [Validate_eq_of_aad c r _ haad]
  cases hv : r.validateVersion <;> cases hd : r.validateDNSServiceIP c <;>
    cases hs : r.validateSSHKey c <;> simp [kerrors.NewAggregate]

/-- C6, witness: both modes populated with a consistent ManagedAuth, where the
reported failure is the conflict error. -/
theorem both_populated_rejected_witness :
    (exampleWithProfile ⟨some exampleManagedAAD, some exampleLegacyAAD⟩).Spec.AADProfile =
      some ⟨some exampleManagedAAD, some exampleLegacyAAD⟩ ∧
    (⟨some exampleManagedAAD, some exampleLegacyAAD⟩ : AADProfile).LegacyAAD =
      some exampleLegacyAAD ∧
    (⟨some exampleManagedAAD, some exampleLegacyAAD⟩ : AADProfile).ManagedAAD =
      some ⟨some true, some ["616077a8-5db7-4c98-b856-b34619afg75h"]⟩ ∧
    ((exampleWithProfile ⟨some exampleManagedAAD, some exampleLegacyAAD⟩).validateAadProfile =
      .ok (some (
        if true = true ∧ ["616077a8-5db7-4c98-b856-b34619afg75h"] = [] then
          .errorString
            "require atleast one groupObjectID in Spec.AADProfile.ManagedAAD.AdminGroupObjectID"
        else if true = false ∧ ["616077a8-5db7-4c98-b856-b34619afg75h"] ≠ [] then
          .errorString "managed field has to be true to enable aad integration with aks"
        else .errorString "conflicting values provided in AADProfile")) ∧
    ∃ e, (exampleWithProfile
      ⟨some exampleManagedAAD, some exampleLegacyAAD⟩).Validate .rejectAll = .ok (some e)) :=
  ⟨rfl, rfl, rfl,
    both_populated_rejected .rejectAll _ _ exampleLegacyAAD true _ rfl rfl rfl⟩

/-! ## Mutual exclusion of the two modes (C7) -/

/-- C7: on every object that `Validate` accepts, LegacyAuth and ManagedAuth
are not both populated. -/
theorem accepted_object_has_at_most_one_mode (c : Collaborators) (r : AzureManagedControlPlane)
    (h : r.Validate c = .ok none) :
    ¬ (r.legacyAuth.isSome = true ∧ r.managedAuth.isSome = true) := by
  rw [Validate_ok_none_iff] at h
  obtain ⟨_, _, _, haad⟩ := h
  rintro ⟨hl, hm⟩
  cases hp : r.Spec.AADProfile with
  | none => simp [AzureManagedControlPlane.legacyAuth, hp] at hl
  | some profile =>
    simp only [AzureManagedControlPlane.legacyAuth, AzureManagedControlPlane.managedAuth, hp]
      at hl hm
    obtain ⟨legacy, hlegacy⟩ := Option.isSome_iff_exists.mp hl
    obtain ⟨m, hmanaged⟩ := Option.isSome_iff_exists.mp hm
    obtain ⟨flag, list⟩ := m
    cases flag with
    | none =>
      simp [AzureManagedControlPlane.validateAadProfile,
        AzureManagedControlPlane.validateManagedAadProfile, hp, hmanaged, deref, bind,
        Except.bind] at haad
    | some managed =>
      cases list with
      | none =>
        cases managed <;>
          simp [AzureManagedControlPlane.validateAadProfile,
            AzureManagedControlPlane.validateManagedAadProfile, hp, hmanaged, deref, bind,
            Except.bind, pure, Except.pure] at haad
      | some ids =>
        cases managed <;> cases ids <;>
          simp [AzureManagedControlPlane.validateAadProfile,
            AzureManagedControlPlane.validateManagedAadProfile,
            AzureManagedControlPlane.validateLegacyAadProfile, hp, hlegacy, hmanaged, deref,
            errors.New, bind, Except.bind, pure, Except.pure] at haad

/-- C7, witness: the accepted object `exampleManaged` has ManagedAuth only. -/
theorem accepted_object_has_at_most_one_mode_witness :
    exampleManaged.Validate .rejectAll = .ok none ∧
    ¬ (exampleManaged.legacyAuth.isSome = true ∧ exampleManaged.managedAuth.isSome = true) :=
  ⟨rfl, accepted_object_has_at_most_one_mode .rejectAll exampleManaged rfl⟩

/-! ## Leaving Managed (C8) -/

/-- C8: when the old object has ManagedAuth populated and the new object has
not (profile absent, present but empty, or LegacyAuth only), `ValidateUpdate`
returns an invalid error with a non-empty list of entries, whatever the other
fields and the checkers are. -/
theorem managed_cannot_be_left (c : Collaborators) (r old : AzureManagedControlPlane)
    (hold : old.managedAuth.isSome = true) (hnew : r.managedAuth = none) :
    ∃ errs, errs ≠ [] ∧ r.ValidateUpdate c old = .ok (some (.invalid r.Name errs)) := by
  cases hpo : old.Spec.AADProfile with
  | none => simp [AzureManagedControlPlane.managedAuth, hpo] at hold
  | some oldProfile =>
    simp only [AzureManagedControlPlane.managedAuth, hpo] at hold
    cases hpn : r.Spec.AADProfile with
    | none =>
      refine ⟨r.immutableFieldErrs old ++ [field.Invalid ["Spec", "AADProfile"]
        (.aadProfile none) "field cannot be nil, cannot disable AADProfile"], by simp, ?_⟩
      simp [AzureManagedControlPlane.ValidateUpdate,
        AzureManagedControlPlane.validateUpdateAadProfile, hpo, hpn, apierrors.NewInvalid, bind,
        Except.bind, pure, Except.pure]
    | some newProfile =>
      simp only [AzureManagedControlPlane.managedAuth, hpn] at hnew
      obtain ⟨oldManaged, hom⟩ := Option.isSome_iff_exists.mp hold
      by_cases hleg : newProfile.LegacyAAD = oldProfile.LegacyAAD
      · refine ⟨r.immutableFieldErrs old ++ [field.Invalid ["Spec", "AADProfile", "ManagedAAD"]
          (.managedAAD none) "AADProfile cannot be disabled or migrated to Legacy"], by simp, ?_⟩
        simp [AzureManagedControlPlane.ValidateUpdate,
          AzureManagedControlPlane.validateUpdateAadProfile, hpo, hpn, hom, hnew, hleg,
          apierrors.NewInvalid, bind, Except.bind, pure, Except.pure]
      · refine ⟨r.immutableFieldErrs old ++ [field.Invalid ["Spec", "AADProfile", "ManagedAAD"]
          (.managedAAD none) "AADProfile cannot be disabled or migrated to Legacy",
          field.Invalid ["Spec", "AADProfile", "LegacyAAD"] (.legacyAAD newProfile.LegacyAAD)
            "field is immutable"], by simp, ?_⟩
        simp [AzureManagedControlPlane.ValidateUpdate,
          AzureManagedControlPlane.validateUpdateAadProfile, hpo, hpn, hom, hnew, hleg,
          apierrors.NewInvalid, bind, Except.bind, pure, Except.pure]

/-- C8, witness: the update from `exampleManaged` to `exampleLegacy`
(Managed to Legacy). -/
theorem managed_cannot_be_left_witness :
    exampleManaged.managedAuth.isSome = true ∧ exampleLegacy.managedAuth = none ∧
    ∃ errs, errs ≠ [] ∧
      exampleLegacy.ValidateUpdate .rejectAll exampleManaged =
        .ok (some (.invalid exampleLegacy.Name errs)) :=
  ⟨rfl, rfl, managed_cannot_be_left .rejectAll exampleLegacy exampleManaged rfl rfl⟩

/-! ## Managed to Managed (C9) -/

/-- C9: when old and new both have ManagedAuth populated and the managed flag
and admin-ID list of new are present, the profile-transition check returns
normally, and it reports no error if and only if the new managed flag is true
and the new admin-ID list is non-empty. -/
theorem managed_to_managed (r : AzureManagedControlPlane) (oldProfile newProfile : AADProfile)
    (managed : Bool) (ids : List String)
    (hold : oldProfile.ManagedAAD.isSome = true)
    (hnew : r.Spec.AADProfile = some newProfile)
    (hmanaged : newProfile.ManagedAAD = some ⟨some managed, some ids⟩) :
    ∃ errs, r.validateUpdateAadProfile (some oldProfile) = .ok errs ∧
      (errs = [] ↔ (managed = true ∧ ids ≠ [])) := by
  obtain ⟨oldManaged, hom⟩ := Option.isSome_iff_exists.mp hold
  cases managed <;> cases ids <;>
    simp [AzureManagedControlPlane.validateUpdateAadProfile, hnew, hmanaged, hom, deref, bind,
      Except.bind, pure, Except.pure]

/-- C9, witness: the update from `exampleManaged` to itself. -/
theorem managed_to_managed_witness :
    (⟨some exampleManagedAAD, none⟩ : AADProfile).ManagedAAD.isSome = true ∧
    exampleManaged.Spec.AADProfile = some ⟨some exampleManagedAAD, none⟩ ∧
    (⟨some exampleManagedAAD, none⟩ : AADProfile).ManagedAAD =
      some ⟨some true, some ["616077a8-5db7-4c98-b856-b34619afg75h"]⟩ ∧
    ∃ errs, exampleManaged.validateUpdateAadProfile (some ⟨some exampleManagedAAD, none⟩) =
        .ok errs ∧
      (errs = [] ↔ (true = true ∧ ["616077a8-5db7-4c98-b856-b34619afg75h"] ≠ [])) :=
  ⟨rfl, rfl, rfl, managed_to_managed exampleManaged _ _ true _ rfl rfl rfl⟩

/-! ## Legacy to Legacy (C10) -/

/-- C10: when old and new both carry a LegacyAuth and no ManagedAuth, the
profile-transition check returns normally, and it reports an error if and only
if at least one of the four legacy fields differs between old and new. -/
theorem legacy_to_legacy (r : AzureManagedControlPlane) (oldProfile newProfile : AADProfile)
    (oldLegacy newLegacy : LegacyAAD)
    (hnew : r.Spec.AADProfile = some newProfile)
    (hol : oldProfile.LegacyAAD = some oldLegacy) (hom : oldProfile.ManagedAAD = none)
    (hnl : newProfile.LegacyAAD = some newLegacy) (hnm : newProfile.ManagedAAD = none) :
    ∃ errs, r.validateUpdateAadProfile (some oldProfile) = .ok errs ∧
      (errs ≠ [] ↔
        (newLegacy.ClientAppID ≠ oldLegacy.ClientAppID ∨
         newLegacy.ServerAppID ≠ oldLegacy.ServerAppID ∨
         newLegacy.ServerAppSecret ≠ oldLegacy.ServerAppSecret ∨
         newLegacy.TenantID ≠ oldLegacy.TenantID)) := by
  have hdiff : newLegacy ≠ oldLegacy ↔
      (newLegacy.ClientAppID ≠ oldLegacy.ClientAppID ∨
       newLegacy.ServerAppID ≠ oldLegacy.ServerAppID ∨
       newLegacy.ServerAppSecret ≠ oldLegacy.ServerAppSecret ∨
       newLegacy.TenantID ≠ oldLegacy.TenantID) := by
    obtain ⟨a, b, s, t⟩ := newLegacy
    obtain ⟨a2, b2, s2, t2⟩ := oldLegacy
    simp only [ne_eq, LegacyAAD.mk.injEq]
    tauto
  by_cases heq : newLegacy = oldLegacy
  · refine ⟨[], ?_, ?_⟩
    · simp [AzureManagedControlPlane.validateUpdateAadProfile, hnew, hol, hom, hnl, hnm, heq,
        bind, Except.bind, pure, Except.pure]
    · rw [← hdiff]
      simp [heq]
  · refine ⟨[field.Invalid ["Spec", "AADProfile", "LegacyAAD"] (.legacyAAD (some newLegacy))
      "field is immutable"], ?_, ?_⟩
    · simp [AzureManagedControlPlane.validateUpdateAadProfile, hnew, hol, hom, hnl, hnm, heq,
        bind, Except.bind, pure, Except.pure]
    · rw [← hdiff]
      simp [heq]

/-- C10, witness: the update from a complete LegacyAuth to one that lacks the
server application ID and secret. -/
theorem legacy_to_legacy_witness :
    (exampleWithProfile ⟨none, some exampleIncompleteLegacyAAD⟩).Spec.AADProfile =
      some ⟨none, some exampleIncompleteLegacyAAD⟩ ∧
    (⟨none, some exampleLegacyAAD⟩ : AADProfile).LegacyAAD = some exampleLegacyAAD ∧
    (⟨none, some exampleLegacyAAD⟩ : AADProfile).ManagedAAD = none ∧
    (⟨none, some exampleIncompleteLegacyAAD⟩ : AADProfile).LegacyAAD =
      some exampleIncompleteLegacyAAD ∧
    (⟨none, some exampleIncompleteLegacyAAD⟩ : AADProfile).ManagedAAD = none ∧
    ∃ errs, (exampleWithProfile ⟨none, some exampleIncompleteLegacyAAD⟩).validateUpdateAadProfile
        (some ⟨none, some exampleLegacyAAD⟩) = .ok errs ∧
      (errs ≠ [] ↔
        (exampleIncompleteLegacyAAD.ClientAppID ≠ exampleLegacyAAD.ClientAppID ∨
         exampleIncompleteLegacyAAD.ServerAppID ≠ exampleLegacyAAD.ServerAppID ∨
         exampleIncompleteLegacyAAD.ServerAppSecret ≠ exampleLegacyAAD.ServerAppSecret ∨
         exampleIncompleteLegacyAAD.TenantID ≠ exampleLegacyAAD.TenantID)) :=
  ⟨rfl, rfl, rfl, rfl, rfl,
    legacy_to_legacy _ ⟨none, some exampleLegacyAAD⟩ ⟨none, some exampleIncompleteLegacyAAD⟩
      exampleLegacyAAD exampleIncompleteLegacyAAD rfl rfl rfl rfl rfl⟩

/-! ## Auxiliary lemmas on the update check -/

/-- Appending under a condition is appending a conditional list. -/
theorem ite_append_right {α : Type} (p : Prop) [Decidable p] (l m : List α) :
    (if p then l ++ m else l) = l ++ (if p then m else []) := by
  split <;> simp

/-- One step of the sticky comparison of an optional field appends the entries
of `stickyFieldErrs` to the list collected so far. -/
theorem sticky_step (errs : List FieldError) (path : List String) (new old : Option String) :
    (match old with
      | some oldValue =>
        match new with
        | none =>
          errs ++ [field.Invalid path (.strPtr new)
            "field is immutable, unsetting is not allowed"]
        | some newValue =>
          errs ++
            if newValue ≠ oldValue then [field.Invalid path (.str newValue) "field is immutable"]
            else []
      | none => errs) = errs ++ stickyFieldErrs path new old := by
  cases old <;> cases new <;> simp [stickyFieldErrs]

/-- The immutability entries are the concatenation, in source order, of the
entries of the ten field comparisons. -/
theorem immutableFieldErrs_eq (r old : AzureManagedControlPlane) :
    r.immutableFieldErrs old =
      identityFieldErrs ["Spec", "SubscriptionID"] r.Spec.SubscriptionID old.Spec.SubscriptionID ++
      identityFieldErrs ["Spec", "ResourceGroupName"] r.Spec.ResourceGroupName
        old.Spec.ResourceGroupName ++
      identityFieldErrs ["Spec", "NodeResourceGroupName"] r.Spec.NodeResourceGroupName
        old.Spec.NodeResourceGroupName ++
      identityFieldErrs ["Spec", "Location"] r.Spec.Location old.Spec.Location ++
      stickyStringErrs ["Spec", "SSHPublicKey"] r.Spec.SSHPublicKey old.Spec.SSHPublicKey ++
      stickyFieldErrs ["Spec", "DNSServiceIP"] r.Spec.DNSServiceIP old.Spec.DNSServiceIP ++
      stickyFieldErrs ["Spec", "NetworkPlugin"] r.Spec.NetworkPlugin old.Spec.NetworkPlugin ++
      stickyFieldErrs ["Spec", "NetworkPolicy"] r.Spec.NetworkPolicy old.Spec.NetworkPolicy ++
      stickyFieldErrs ["Spec", "LoadBalancerSKU"] r.Spec.LoadBalancerSKU
        old.Spec.LoadBalancerSKU ++
      stickyStringErrs ["Spec", "DefaultPoolRef", "Name"] r.Spec.DefaultPoolRef.Name
        old.Spec.DefaultPoolRef.Name := by
  simp only [immutableFieldErrs, sticky_step, ite_append_right, List.nil_append]
  rfl
/-- The immutability entries are empty when the identity fields agree, the SSH
key and pool reference agree or were empty, and each sticky field agrees or was
unset. -/
theorem immutableFieldErrs_eq_nil (r old : AzureManagedControlPlane)
    (h1 : r.Spec.SubscriptionID = old.Spec.SubscriptionID)
    (h2 : r.Spec.ResourceGroupName = old.Spec.ResourceGroupName)
    (h3 : r.Spec.NodeResourceGroupName = old.Spec.NodeResourceGroupName)
    (h4 : r.Spec.Location = old.Spec.Location)
    (h5 : old.Spec.SSHPublicKey = "" ∨ r.Spec.SSHPublicKey = old.Spec.SSHPublicKey)
    (h6 : old.Spec.DNSServiceIP = none ∨ r.Spec.DNSServiceIP = old.Spec.DNSServiceIP)
    (h7 : old.Spec.NetworkPlugin = none ∨ r.Spec.NetworkPlugin = old.Spec.NetworkPlugin)
    (h8 : old.Spec.NetworkPolicy = none ∨ r.Spec.NetworkPolicy = old.Spec.NetworkPolicy)
    (h9 : old.Spec.LoadBalancerSKU = none ∨ r.Spec.LoadBalancerSKU = old.Spec.LoadBalancerSKU)
    (h10 : old.Spec.DefaultPoolRef.Name = "" ∨
      r.Spec.DefaultPoolRef.Name = old.Spec.DefaultPoolRef.Name) :
    r.immutableFieldErrs old = [] := by
  have sticky : ∀ (path : List String) (new old : Option String),
      old = none ∨ new = old → stickyFieldErrs path new old = [] := by
    intro path new old h
    rcases h with h | h
    · simp [stickyFieldErrs, h]
    · subst h
      cases new <;> simp [stickyFieldErrs]
  have stickyString : ∀ (path : List String) (new old : String),
      old = "" ∨ new = old → stickyStringErrs path new old = [] := by
    intro path new old h
    rcases h with h | h <;> simp [stickyStringErrs, h]
  rw [immutableFieldErrs_eq, sticky _ _ _ h6, sticky _ _ _ h7, sticky _ _ _ h8,
    sticky _ _ _ h9, stickyString _ _ _ h5, stickyString _ _ _ h10]
  simp [identityFieldErrs, h1, h2, h3, h4]

/-- The method `ValidateUpdate` accepts exactly when the immutability entries
are empty, the profile-transition check returns the empty list, and `Validate`
accepts the new object. -/
theorem ValidateUpdate_ok_none_iff (c : Collaborators) (r old : AzureManagedControlPlane) :
    r.ValidateUpdate c old = .ok none ↔
      r.immutableFieldErrs old = [] ∧ r.validateUpdateAadProfile old.Spec.AADProfile = .ok [] ∧
        r.Validate c = .ok none := by
  cases h : r.validateUpdateAadProfile old.Spec.AADProfile with
  | error p => simp [ValidateUpdate, h, bind, Except.bind]
  | ok errs =>
    by_cases he : r.immutableFieldErrs old ++ errs = []
    · have hlen : (r.immutableFieldErrs old ++ errs).length = 0 := by simp [he]
      obtain ⟨h1, h2⟩ := List.append_eq_nil.mp he
      simp only [ValidateUpdate, h, bind, Except.bind]
      rw [if_pos hlen]
      simp [h1, h2]
    · have hlen : ¬ (r.immutableFieldErrs old ++ errs).length = 0 := by
        simpa [List.length_eq_zero] using he
      simp only [ValidateUpdate, h, bind, Except.bind]
      rw [if_neg hlen]
      constructor
      · intro hcontra
        simp [pure, Except.pure] at hcontra
      · rintro ⟨h1, h2, _⟩
        exact absurd (by simp [h1, Except.ok.inj h2]) he

/-- When the profile-transition check returns a list, `ValidateUpdate` returns
normally; with a non-empty list of update entries it returns the invalid error
carrying them. -/
theorem ValidateUpdate_of_entries (c : Collaborators) (r old : AzureManagedControlPlane)
    (errs : List FieldError) (h : r.validateUpdateAadProfile old.Spec.AADProfile = .ok errs)
    (hne : r.immutableFieldErrs old ++ errs ≠ []) :
    r.ValidateUpdate c old = .ok (some (.invalid r.Name (r.immutableFieldErrs old ++ errs))) := by
  have hlen : ¬ (r.immutableFieldErrs old ++ errs).length = 0 := by
    simpa [List.length_eq_zero] using hne
  simp only [ValidateUpdate, h, bind, Except.bind]
  rw [if_neg hlen]
  rfl

/-! ## Legacy to Unset (C11) -/

/-- C11: when the old object has a LegacyAuth populated and the new object's
authentication profile is absent or present but empty, `ValidateUpdate`
returns an invalid error with a non-empty list of entries. -/
theorem legacy_cannot_be_unset (c : Collaborators) (r old : AzureManagedControlPlane)
    (hold : old.legacyAuth.isSome = true)
    (hnew : r.Spec.AADProfile = none ∨ r.Spec.AADProfile = some ⟨none, none⟩) :
    ∃ errs, errs ≠ [] ∧ r.ValidateUpdate c old = .ok (some (.invalid r.Name errs)) := by
  cases hpo : old.Spec.AADProfile with
  | none => simp [legacyAuth, hpo] at hold
  | some oldProfile =>
    simp only [legacyAuth, hpo] at hold
    obtain ⟨oldLegacy, hol⟩ := Option.isSome_iff_exists.mp hold
    have key : ∃ errs, errs ≠ [] ∧ r.validateUpdateAadProfile old.Spec.AADProfile = .ok errs := by
      rcases hnew with hnew | hnew
      · exact ⟨[field.Invalid ["Spec", "AADProfile"] (.aadProfile none)
          "field cannot be nil, cannot disable AADProfile"], by simp, by
          simp [validateUpdateAadProfile, hpo, hnew, pure, Except.pure]⟩
      · cases hom : oldProfile.ManagedAAD with
        | none =>
          exact ⟨[field.Invalid ["Spec", "AADProfile", "LegacyAAD"] (.legacyAAD none)
            "field is immutable"], by simp, by
            simp [validateUpdateAadProfile, hpo, hnew, hol, hom, bind, Except.bind, pure,
              Except.pure]⟩
        | some oldManaged =>
          exact ⟨[field.Invalid ["Spec", "AADProfile", "ManagedAAD"] (.managedAAD none)
              "AADProfile cannot be disabled or migrated to Legacy",
            field.Invalid ["Spec", "AADProfile", "LegacyAAD"] (.legacyAAD none)
              "field is immutable"], by simp, by
            simp [validateUpdateAadProfile, hpo, hnew, hol, hom, bind, Except.bind, pure,
              Except.pure]⟩
    obtain ⟨errs, hne, herrs⟩ := key
    exact ⟨r.immutableFieldErrs old ++ errs, by simp [hne],
      ValidateUpdate_of_entries c r old errs herrs (by simp [hne])⟩

/-- C11, witness: the update from `exampleLegacy` to the object without a
profile. -/
theorem legacy_cannot_be_unset_witness :
    exampleLegacy.legacyAuth.isSome = true ∧
    (exampleUnset.Spec.AADProfile = none ∨ exampleUnset.Spec.AADProfile = some ⟨none, none⟩) ∧
    ∃ errs, errs ≠ [] ∧
      exampleUnset.ValidateUpdate .rejectAll exampleLegacy =
        .ok (some (.invalid exampleUnset.Name errs)) :=
  ⟨rfl, Or.inl rfl, legacy_cannot_be_unset .rejectAll exampleUnset exampleLegacy rfl (Or.inl rfl)⟩

/-! ## Moving to Managed (C12) -/

/-- C12: when the old object has no ManagedAuth (its profile is absent, empty
or LegacyAuth only), and the new object equals it in every other field, passes
`Validate`, and has a profile that is ManagedAuth only with `managed = true`
and an admin-ID list (non-empty, since `Validate` accepts it), `ValidateUpdate`
succeeds. -/
theorem move_to_managed_accepted (c : Collaborators) (r old : AzureManagedControlPlane)
    (ids : List String) (hold : old.managedAuth = none)
    (hspec : r.Spec = { old.Spec with AADProfile := some ⟨some ⟨some true, some ids⟩, none⟩ })
    (hvalid : r.Validate c = .ok none) :
    r.ValidateUpdate c old = .ok none := by
  rw [ValidateUpdate_ok_none_iff]
  refine ⟨?_, ?_, hvalid⟩
  · apply immutableFieldErrs_eq_nil <;> simp [hspec]
  · have hp : r.Spec.AADProfile = some ⟨some ⟨some true, some ids⟩, none⟩ := by simp [hspec]
    cases hpo : old.Spec.AADProfile with
    | none =>
      simp [validateUpdateAadProfile, hp, pure, Except.pure]
    | some oldProfile =>
      have hom : oldProfile.ManagedAAD = none := by simpa [managedAuth, hpo] using hold
      simp [validateUpdateAadProfile, hp, hom, bind, Except.bind, pure, Except.pure]

/-- C12, witness: the update from `exampleLegacy` to `exampleManaged`
(Legacy to Managed). -/
theorem move_to_managed_accepted_witness :
    exampleLegacy.managedAuth = none ∧
    exampleManaged.Spec = { exampleLegacy.Spec with
      AADProfile := some ⟨some ⟨some true, some ["616077a8-5db7-4c98-b856-b34619afg75h"]⟩,
        none⟩ } ∧
    exampleManaged.Validate .rejectAll = .ok none ∧
    exampleManaged.ValidateUpdate .rejectAll exampleLegacy = .ok none :=
  ⟨rfl, rfl, rfl,
    move_to_managed_accepted .rejectAll exampleManaged exampleLegacy _ rfl rfl rfl⟩

/-! ## Unset to Unset (C13) -/

/-- C13, counterexample: neither object has a mode populated, the old profile
is present but empty and the new profile is absent; the profile-transition
check reports the entry "field cannot be nil, cannot disable AADProfile". -/
theorem unset_to_unset_counterexample :
    exampleEmptyProfile.legacyAuth = none ∧ exampleEmptyProfile.managedAuth = none ∧
    exampleUnset.legacyAuth = none ∧ exampleUnset.managedAuth = none ∧
    exampleUnset.validateUpdateAadProfile exampleEmptyProfile.Spec.AADProfile =
      .ok [⟨["Spec", "AADProfile"], .aadProfile none,
        "field cannot be nil, cannot disable AADProfile"⟩] :=
  ⟨rfl, rfl, rfl, rfl, rfl⟩

/-- C13, amended: when neither the old nor the new object has LegacyAuth or
ManagedAuth populated, the profile-transition check returns normally; it
reports the single entry "field cannot be nil, cannot disable AADProfile" when
the old profile is present (but empty) and the new profile is absent, and
reports no error in the three other cases. -/
theorem unset_to_unset (r old : AzureManagedControlPlane)
    (hol : old.legacyAuth = none) (hom : old.managedAuth = none)
    (hnl : r.legacyAuth = none) (hnm : r.managedAuth = none) :
    r.validateUpdateAadProfile old.Spec.AADProfile = .ok (
      if old.Spec.AADProfile.isSome = true ∧ r.Spec.AADProfile.isNone = true then
        [field.Invalid ["Spec", "AADProfile"] (.aadProfile none)
          "field cannot be nil, cannot disable AADProfile"]
      else []) := by
  cases hpo : old.Spec.AADProfile with
  | none =>
    cases hpn : r.Spec.AADProfile with
    | none => simp [validateUpdateAadProfile, hpn, pure, Except.pure]
    | some newProfile =>
      have h : newProfile.LegacyAAD = none := by simpa [legacyAuth, hpn] using hnl
      simp [validateUpdateAadProfile, hpn, h, pure, Except.pure]
  | some oldProfile =>
    have h1 : oldProfile.LegacyAAD = none := by simpa [legacyAuth, hpo] using hol
    have h2 : oldProfile.ManagedAAD = none := by simpa [managedAuth, hpo] using hom
    cases hpn : r.Spec.AADProfile with
    | none => simp [validateUpdateAadProfile, hpn, pure, Except.pure]
    | some newProfile =>
      have h3 : newProfile.LegacyAAD = none := by simpa [legacyAuth, hpn] using hnl
      have h4 : newProfile.ManagedAAD = none := by simpa [managedAuth, hpn] using hnm
      simp [validateUpdateAadProfile, hpn, h1, h2, h3, h4, bind, Except.bind, pure,
        Except.pure]

/-- C13, witness: the update from the absent profile to the empty profile. -/
theorem unset_to_unset_witness :
    exampleUnset.legacyAuth = none ∧ exampleUnset.managedAuth = none ∧
    exampleEmptyProfile.legacyAuth = none ∧ exampleEmptyProfile.managedAuth = none ∧
    exampleEmptyProfile.validateUpdateAadProfile exampleUnset.Spec.AADProfile = .ok (
      if exampleUnset.Spec.AADProfile.isSome = true ∧
          exampleEmptyProfile.Spec.AADProfile.isNone = true then
        [field.Invalid ["Spec", "AADProfile"] (.aadProfile none)
          "field cannot be nil, cannot disable AADProfile"]
      else []) :=
  ⟨rfl, rfl, rfl, rfl, unset_to_unset exampleEmptyProfile exampleUnset rfl rfl rfl rfl⟩

/-! ## The authentication mode over a history (C14) -/

/-- One accepted update out of an object with ManagedAuth populated leads to an
object whose ManagedAuth is enabled. -/
theorem accepted_update_keeps_managed (c : Collaborators) (old new : AzureManagedControlPlane)
    (h : AcceptedUpdate c old new) (hold : old.managedAuth.isSome = true) :
    new.managedEnabled := by
  obtain ⟨_, hupd, _⟩ := (ValidateUpdate_ok_none_iff c new old).mp h
  cases hpo : old.Spec.AADProfile with
  | none => simp [managedAuth, hpo] at hold
  | some oldProfile =>
    simp only [managedAuth, hpo] at hold
    obtain ⟨oldManaged, hom⟩ := Option.isSome_iff_exists.mp hold
    cases hpn : new.Spec.AADProfile with
    | none =>
      simp [validateUpdateAadProfile, hpo, hpn, pure, Except.pure] at hupd
    | some newProfile =>
      cases hnm : newProfile.ManagedAAD with
      | none =>
        by_cases hleg : newProfile.LegacyAAD = oldProfile.LegacyAAD <;>
          simp [validateUpdateAadProfile, hpo, hpn, hom, hnm, hleg, bind, Except.bind, pure,
            Except.pure] at hupd
      | some newManaged =>
        obtain ⟨flag, list⟩ := newManaged
        cases flag with
        | none =>
          simp [validateUpdateAadProfile, hpo, hpn, hom, hnm, deref, bind, Except.bind]
            at hupd
        | some managed =>
          cases list with
          | none =>
            cases managed <;>
              simp [validateUpdateAadProfile, hpo, hpn, hom, hnm, deref, bind, Except.bind]
                at hupd
          | some ids =>
            cases managed <;> cases ids <;>
              simp [validateUpdateAadProfile, hpo, hpn, hom, hnm, deref, bind, Except.bind,
                pure, Except.pure] at hupd
            rename_i first rest
            exact ⟨first :: rest, by simp, by simp [managedAuth, hpn, hnm]⟩

/-- One accepted update out of an object with LegacyAuth populated leads to an
object with LegacyAuth or ManagedAuth populated. -/
theorem accepted_update_keeps_mode (c : Collaborators) (old new : AzureManagedControlPlane)
    (h : AcceptedUpdate c old new) (hold : old.legacyAuth.isSome = true) :
    new.legacyAuth.isSome = true ∨ new.managedAuth.isSome = true := by
  obtain ⟨_, hupd, _⟩ := (ValidateUpdate_ok_none_iff c new old).mp h
  cases hpo : old.Spec.AADProfile with
  | none => simp [legacyAuth, hpo] at hold
  | some oldProfile =>
    simp only [legacyAuth, hpo] at hold
    obtain ⟨oldLegacy, hol⟩ := Option.isSome_iff_exists.mp hold
    cases hpn : new.Spec.AADProfile with
    | none =>
      simp [validateUpdateAadProfile, hpo, hpn, pure, Except.pure] at hupd
    | some newProfile =>
      cases hnm : newProfile.ManagedAAD with
      | some newManaged => exact Or.inr (by simp [managedAuth, hpn, hnm])
      | none =>
        left
        by_cases hleg : newProfile.LegacyAAD = oldProfile.LegacyAAD
        · simp [legacyAuth, hpn, hleg, hol]
        · cases hom : oldProfile.ManagedAAD <;>
            simp [validateUpdateAadProfile, hpo, hpn, hom, hnm, hleg, bind, Except.bind, pure,
              Except.pure] at hupd

/-- C14: along every finite sequence of objects in which each consecutive pair
is an accepted update, for every earlier object and every later one: if the
earlier has ManagedAuth populated then the later has ManagedAuth populated with
`managed = true` and a non-empty admin-ID list, and if the earlier has
LegacyAuth populated then the later has LegacyAuth or ManagedAuth populated
(its profile is not unset). -/
theorem auth_mode_moves_forward (c : Collaborators) (history : List AzureManagedControlPlane)
    (h : history.Chain' (AcceptedUpdate c)) :
    history.Pairwise (fun earlier later =>
      (earlier.managedAuth.isSome = true → later.managedEnabled) ∧
      (earlier.legacyAuth.isSome = true →
        later.legacyAuth.isSome = true ∨ later.managedAuth.isSome = true)) := by
  let S : AzureManagedControlPlane → AzureManagedControlPlane → Prop := fun a b =>
    (a.managedAuth.isSome = true → b.managedEnabled) ∧
    (a.legacyAuth.isSome = true ∨ a.managedAuth.isSome = true →
      b.legacyAuth.isSome = true ∨ b.managedAuth.isSome = true)
  have enabled_isSome : ∀ b : AzureManagedControlPlane, b.managedEnabled →
      b.managedAuth.isSome = true := by
    rintro b ⟨ids, _, hb⟩
    simp [hb]
  have step : ∀ a b, AcceptedUpdate c a b → S a b := by
    intro a b hab
    refine ⟨accepted_update_keeps_managed c a b hab, ?_⟩
    rintro (hl | hm)
    · exact accepted_update_keeps_mode c a b hab hl
    · exact Or.inr (enabled_isSome b (accepted_update_keeps_managed c a b hab hm))
  haveI : IsTrans AzureManagedControlPlane S :=
    ⟨fun a b d hab hbd =>
      ⟨fun hm => hbd.1 (enabled_isSome b (hab.1 hm)), fun hlm => hbd.2 (hab.2 hlm)⟩⟩
  have hS : history.Pairwise S := List.chain'_iff_pairwise.mp (h.imp step)
  exact hS.imp (fun hab => ⟨hab.1, fun hl => hab.2 (Or.inl hl)⟩)

/-- C14, witness: the history legacy, managed, managed. -/
theorem auth_mode_moves_forward_witness :
    [exampleLegacy, exampleManaged, exampleManaged].Chain' (AcceptedUpdate .rejectAll) ∧
    [exampleLegacy, exampleManaged, exampleManaged].Pairwise (fun earlier later =>
      (earlier.managedAuth.isSome = true → later.managedEnabled) ∧
      (earlier.legacyAuth.isSome = true →
        later.legacyAuth.isSome = true ∨ later.managedAuth.isSome = true)) :=
  ⟨by
    refine List.chain'_cons.mpr ⟨?_, List.chain'_cons.mpr ⟨?_, List.chain'_singleton _⟩⟩ <;> rfl,
   auth_mode_moves_forward .rejectAll _ (by
    refine List.chain'_cons.mpr ⟨?_, List.chain'_cons.mpr ⟨?_, List.chain'_singleton _⟩⟩ <;> rfl)⟩

/-! ## Membership in the immutability entries -/

/-- The entries of an identity-field comparison. -/
theorem mem_identityFieldErrs (e : FieldError) (path : List String) (new old : String) :
    e ∈ identityFieldErrs path new old ↔
      new ≠ old ∧ e = field.Invalid path (.str new) "field is immutable" := by
  unfold identityFieldErrs
  split <;> simp_all

/-- The entries of the comparison of a string field that is immutable once
non-empty. -/
theorem mem_stickyStringErrs (e : FieldError) (path : List String) (new old : String) :
    e ∈ stickyStringErrs path new old ↔
      old ≠ "" ∧ new ≠ old ∧ e = field.Invalid path (.str new) "field is immutable" := by
  unfold stickyStringErrs
  split <;> [split; skip] <;> simp_all

/-- The entries of the comparison of an optional field that is immutable once
set. -/
theorem mem_stickyFieldErrs (e : FieldError) (path : List String) (new old : Option String) :
    e ∈ stickyFieldErrs path new old ↔
      ∃ oldValue, old = some oldValue ∧
        ((new = none ∧ e = field.Invalid path (.strPtr none)
            "field is immutable, unsetting is not allowed") ∨
         ∃ newValue, new = some newValue ∧ newValue ≠ oldValue ∧
            e = field.Invalid path (.str newValue) "field is immutable") := by
  cases old with
  | none => simp [stickyFieldErrs]
  | some oldValue =>
    cases new with
    | none => simp [stickyFieldErrs]
    | some newValue =>
      by_cases h : newValue = oldValue <;> simp [stickyFieldErrs, h]

/-- Every entry of an identity-field comparison carries the given path. -/
theorem field_of_mem_identityFieldErrs (e : FieldError) (path : List String) (new old : String)
    (h : e ∈ identityFieldErrs path new old) : e.Field = path := by
  rw [mem_identityFieldErrs] at h
  rw [h.2]
  rfl

/-- Every entry of a sticky string comparison carries the given path. -/
theorem field_of_mem_stickyStringErrs (e : FieldError) (path : List String) (new old : String)
    (h : e ∈ stickyStringErrs path new old) : e.Field = path := by
  rw [mem_stickyStringErrs] at h
  rw [h.2.2]
  rfl

/-- Every entry of a sticky optional comparison carries the given path. -/
theorem field_of_mem_stickyFieldErrs (e : FieldError) (path : List String)
    (new old : Option String) (h : e ∈ stickyFieldErrs path new old) : e.Field = path := by
  rw [mem_stickyFieldErrs] at h
  obtain ⟨_, _, h | ⟨_, _, _, h⟩⟩ := h
  · rw [h.2]; rfl
  · rw [h]; rfl

/-- An object with the same profile as the persisted one passes the
profile-transition check when its own profile is valid and the ManagedAuth, if
populated, has the managed flag true. -/
theorem transition_same_profile (r old : AzureManagedControlPlane)
    (hsame : r.Spec.AADProfile = old.Spec.AADProfile)
    (hvalid : r.validateAadProfile = .ok none)
    (hflag : ∀ m, old.managedAuth = some m → m.Managed = some true) :
    r.validateUpdateAadProfile old.Spec.AADProfile = .ok [] := by
  cases hp : r.Spec.AADProfile with
  | none =>
    rw [← hsame, hp]
    simp [validateUpdateAadProfile, hp, pure, Except.pure]
  | some profile =>
    have hpo : old.Spec.AADProfile = some profile := by rw [← hsame, hp]
    rw [hpo]
    cases hm : profile.ManagedAAD with
    | none =>
      simp [validateUpdateAadProfile, hp, hm, bind, Except.bind, pure, Except.pure]
    | some m =>
      have hm1 : m.Managed = some true := hflag m (by simp [managedAuth, hpo, hm])
      obtain ⟨flag, list⟩ := m
      simp only at hm1
      subst hm1
      cases list with
      | none =>
        simp [validateAadProfile, validateManagedAadProfile, hp, hm, deref, bind, Except.bind]
          at hvalid
      | some ids =>
        cases ids with
        | nil =>
          simp [validateAadProfile, validateManagedAadProfile, hp, hm, deref, errors.New, bind,
            Except.bind, pure, Except.pure] at hvalid
        | cons first rest =>
          simp [validateUpdateAadProfile, hp, hm, deref, bind, Except.bind, pure, Except.pure]

/-! ## Identity fields (C15) -/

/-- The immutability entries contain the entry of every identity field that
differs between the new and the old object: the field's path, the new value and
the message "field is immutable". -/
theorem identity_field_entries (r old : AzureManagedControlPlane) :
    (r.Spec.SubscriptionID ≠ old.Spec.SubscriptionID →
      field.Invalid ["Spec", "SubscriptionID"] (.str r.Spec.SubscriptionID) "field is immutable"
        ∈ r.immutableFieldErrs old) ∧
    (r.Spec.ResourceGroupName ≠ old.Spec.ResourceGroupName →
      field.Invalid ["Spec", "ResourceGroupName"] (.str r.Spec.ResourceGroupName)
        "field is immutable" ∈ r.immutableFieldErrs old) ∧
    (r.Spec.NodeResourceGroupName ≠ old.Spec.NodeResourceGroupName →
      field.Invalid ["Spec", "NodeResourceGroupName"] (.str r.Spec.NodeResourceGroupName)
        "field is immutable" ∈ r.immutableFieldErrs old) ∧
    (r.Spec.Location ≠ old.Spec.Location →
      field.Invalid ["Spec", "Location"] (.str r.Spec.Location) "field is immutable"
        ∈ r.immutableFieldErrs old) := by
  simp only [immutableFieldErrs_eq, List.mem_append, mem_identityFieldErrs]
  refine ⟨fun h => ?_, fun h => ?_, fun h => ?_, fun h => ?_⟩ <;> simp [h]

/-- C15, the code at the failing input: the location changes from
"westeurope" to "eastus", the immutability check collects the Location entry,
and `ValidateUpdate` then panics in the profile-transition check (the new
ManagedAuth has no managed flag) instead of returning the entry. -/
theorem identity_change_lost_in_panic :
    exampleManagedWestEurope.Spec.Location = "westeurope" ∧
    exampleManagedNoFlagEastUs.Spec.Location = "eastus" ∧
    exampleManagedNoFlagEastUs.immutableFieldErrs exampleManagedWestEurope =
      [⟨["Spec", "Location"], .str "eastus", "field is immutable"⟩] ∧
    exampleManagedNoFlagEastUs.ValidateUpdate .rejectAll exampleManagedWestEurope =
      .error .nilDereference :=
  ⟨rfl, rfl, rfl, rfl⟩

/-! ## Sticky optional fields (C16) -/

/-- The immutability entries contain the entry of a sticky optional field that
was set and is removed or changed: the 'unsetting is not allowed' entry for a
removal, the 'field is immutable' entry with the new value for a change.
Stated for the DNS service IP, the network plugin, the network policy and the
load-balancer SKU. -/
theorem sticky_field_entries (r old : AzureManagedControlPlane) (oldValue : String) :
    (old.Spec.DNSServiceIP = some oldValue →
      (r.Spec.DNSServiceIP = none →
        field.Invalid ["Spec", "DNSServiceIP"] (.strPtr none)
          "field is immutable, unsetting is not allowed" ∈ r.immutableFieldErrs old) ∧
      (∀ newValue, r.Spec.DNSServiceIP = some newValue → newValue ≠ oldValue →
        field.Invalid ["Spec", "DNSServiceIP"] (.str newValue) "field is immutable"
          ∈ r.immutableFieldErrs old)) ∧
    (old.Spec.NetworkPlugin = some oldValue →
      (r.Spec.NetworkPlugin = none →
        field.Invalid ["Spec", "NetworkPlugin"] (.strPtr none)
          "field is immutable, unsetting is not allowed" ∈ r.immutableFieldErrs old) ∧
      (∀ newValue, r.Spec.NetworkPlugin = some newValue → newValue ≠ oldValue →
        field.Invalid ["Spec", "NetworkPlugin"] (.str newValue) "field is immutable"
          ∈ r.immutableFieldErrs old)) ∧
    (old.Spec.NetworkPolicy = some oldValue →
      (r.Spec.NetworkPolicy = none →
        field.Invalid ["Spec", "NetworkPolicy"] (.strPtr none)
          "field is immutable, unsetting is not allowed" ∈ r.immutableFieldErrs old) ∧
      (∀ newValue, r.Spec.NetworkPolicy = some newValue → newValue ≠ oldValue →
        field.Invalid ["Spec", "NetworkPolicy"] (.str newValue) "field is immutable"
          ∈ r.immutableFieldErrs old)) ∧
    (old.Spec.LoadBalancerSKU = some oldValue →
      (r.Spec.LoadBalancerSKU = none →
        field.Invalid ["Spec", "LoadBalancerSKU"] (.strPtr none)
          "field is immutable, unsetting is not allowed" ∈ r.immutableFieldErrs old) ∧
      (∀ newValue, r.Spec.LoadBalancerSKU = some newValue → newValue ≠ oldValue →
        field.Invalid ["Spec", "LoadBalancerSKU"] (.str newValue) "field is immutable"
          ∈ r.immutableFieldErrs old)) := by
  simp only [immutableFieldErrs_eq, List.mem_append, mem_stickyFieldErrs]
  refine ⟨fun h => ⟨fun hn => ?_, fun v hn hv => ?_⟩, fun h => ⟨fun hn => ?_, fun v hn hv => ?_⟩,
    fun h => ⟨fun hn => ?_, fun v hn hv => ?_⟩, fun h => ⟨fun hn => ?_, fun v hn hv => ?_⟩⟩ <;>
    simp [h, hn, *]

/-- C16, the code at the failing input: the DNS service IP "192.168.0.0" is
removed, the immutability check collects the 'unsetting is not allowed' entry,
and `ValidateUpdate` then panics in the profile-transition check (the new
ManagedAuth has no managed flag) instead of returning the entry. -/
theorem sticky_removal_lost_in_panic :
    exampleManagedWithDNS.Spec.DNSServiceIP = some "192.168.0.0" ∧
    exampleManagedNoFlag.Spec.DNSServiceIP = none ∧
    exampleManagedNoFlag.immutableFieldErrs exampleManagedWithDNS =
      [⟨["Spec", "DNSServiceIP"], .strPtr none,
        "field is immutable, unsetting is not allowed"⟩] ∧
    exampleManagedNoFlag.ValidateUpdate .rejectAll exampleManagedWithDNS =
      .error .nilDereference :=
  ⟨rfl, rfl, rfl, rfl⟩

/-! ## First-set of a sticky optional field (C17) -/

/-- C17, counterexample: old and new pass `Validate`, the network plugin is
unset in old and new equals old except for the first-time value "azure", and
`ValidateUpdate` returns the two Managed-to-Managed entries: the unchanged
ManagedAuth has `managed = false` and an empty admin-ID list. -/
theorem first_set_counterexample :
    exampleManagedDisabled.Validate .rejectAll = .ok none ∧
    exampleManagedDisabledAzure.Validate .rejectAll = .ok none ∧
    exampleManagedDisabled.Spec.NetworkPlugin = none ∧
    exampleManagedDisabledAzure =
      { exampleManagedDisabled with Spec.NetworkPlugin := some "azure" } ∧
    exampleManagedDisabledAzure.ValidateUpdate .rejectAll exampleManagedDisabled =
      .ok (some (.invalid ""
        [⟨["Spec", "AADProfile", "ManagedAAD"], .boolPtr (some false),
          "field cannot be set to false"⟩,
         ⟨["Spec", "AADProfile", "AdminGroupObjectIDs"], .strSlicePtr (some []),
          "need atleast one AdminGroupObjectID"⟩])) :=
  ⟨rfl, rfl, rfl, rfl, rfl⟩

/-- C17, amended: the immutability check reports an entry for the DNS service
IP, the network plugin, the network policy or the load-balancer SKU only when
that field was set in old.  And when new agrees with old on the identity
fields, the SSH key, the pool reference and the profile, each of the four
sticky fields is unchanged or was unset in old, new passes `Validate`, and the
ManagedAuth (if populated) has the managed flag true, `ValidateUpdate`
succeeds. -/
theorem first_set_is_free (c : Collaborators) (r old : AzureManagedControlPlane) :
    (∀ e ∈ r.immutableFieldErrs old,
      (e.Field = ["Spec", "DNSServiceIP"] → old.Spec.DNSServiceIP ≠ none) ∧
      (e.Field = ["Spec", "NetworkPlugin"] → old.Spec.NetworkPlugin ≠ none) ∧
      (e.Field = ["Spec", "NetworkPolicy"] → old.Spec.NetworkPolicy ≠ none) ∧
      (e.Field = ["Spec", "LoadBalancerSKU"] → old.Spec.LoadBalancerSKU ≠ none)) ∧
    (r.Spec.SubscriptionID = old.Spec.SubscriptionID →
      r.Spec.ResourceGroupName = old.Spec.ResourceGroupName →
      r.Spec.NodeResourceGroupName = old.Spec.NodeResourceGroupName →
      r.Spec.Location = old.Spec.Location →
      r.Spec.SSHPublicKey = old.Spec.SSHPublicKey →
      r.Spec.DefaultPoolRef = old.Spec.DefaultPoolRef →
      r.Spec.AADProfile = old.Spec.AADProfile →
      (old.Spec.DNSServiceIP = none ∨ r.Spec.DNSServiceIP = old.Spec.DNSServiceIP) →
      (old.Spec.NetworkPlugin = none ∨ r.Spec.NetworkPlugin = old.Spec.NetworkPlugin) →
      (old.Spec.NetworkPolicy = none ∨ r.Spec.NetworkPolicy = old.Spec.NetworkPolicy) →
      (old.Spec.LoadBalancerSKU = none ∨ r.Spec.LoadBalancerSKU = old.Spec.LoadBalancerSKU) →
      r.Validate c = .ok none →
      (∀ m, old.managedAuth = some m → m.Managed = some true) →
      r.ValidateUpdate c old = .ok none) := by
  constructor
  · intro e he
    rw [immutableFieldErrs_eq] at he
    simp only [List.mem_append] at he
    have hid := field_of_mem_identityFieldErrs e
    have hss := field_of_mem_stickyStringErrs e
    have hsf := field_of_mem_stickyFieldErrs e
    rcases he with ((((((((h | h) | h) | h) | h) | h) | h) | h) | h) | h
    · simp [hid _ _ _ h]
    · simp [hid _ _ _ h]
    · simp [hid _ _ _ h]
    · simp [hid _ _ _ h]
    · simp [hss _ _ _ h]
    · obtain ⟨o, ho, _⟩ := (mem_stickyFieldErrs _ _ _ _).mp h
      simp [hsf _ _ _ h, ho]
    · obtain ⟨o, ho, _⟩ := (mem_stickyFieldErrs _ _ _ _).mp h
      simp [hsf _ _ _ h, ho]
    · obtain ⟨o, ho, _⟩ := (mem_stickyFieldErrs _ _ _ _).mp h
      simp [hsf _ _ _ h, ho]
    · obtain ⟨o, ho, _⟩ := (mem_stickyFieldErrs _ _ _ _).mp h
      simp [hsf _ _ _ h, ho]
    · simp [hss _ _ _ h]
  · intro h1 h2 h3 h4 h5 h10 haad h6 h7 h8 h9 hvalid hflag
    rw [ValidateUpdate_ok_none_iff]
    refine ⟨immutableFieldErrs_eq_nil r old h1 h2 h3 h4 (Or.inr h5) h6 h7 h8 h9
      (Or.inr (by rw [h10])), ?_, hvalid⟩
    exact transition_same_profile r old haad ((Validate_ok_none_iff c r).mp hvalid).2.2.2 hflag

/-- C17, witness: the network plugin "azure" set for the first time on
`exampleManaged`. -/
theorem first_set_is_free_witness :
    exampleManagedAzure.Validate .rejectAll = .ok none ∧
    (∀ m, exampleManaged.managedAuth = some m → m.Managed = some true) ∧
    exampleManagedAzure.ValidateUpdate .rejectAll exampleManaged = .ok none :=
  ⟨rfl, fun m hm => by cases hm; rfl,
    (first_set_is_free .rejectAll exampleManagedAzure exampleManaged).2 rfl rfl rfl rfl rfl rfl
      rfl (Or.inl rfl) (Or.inl rfl) (Or.inl rfl) (Or.inl rfl) rfl
      (fun m hm => by cases hm; rfl)⟩

/-! ## The SSH public key (C18) -/

/-- C18, counterexample: old has no SSH key and passes `Validate`; new equals
old except for a first key that the key checker accepts, and passes `Validate`;
`ValidateUpdate` returns the two Managed-to-Managed entries, because the
unchanged ManagedAuth has `managed = false` and an empty admin-ID list. -/
theorem first_key_counterexample :
    exampleManagedDisabled.Spec.SSHPublicKey = "" ∧
    exampleManagedDisabled.Validate .acceptAll = .ok none ∧
    exampleManagedDisabledWithKey =
      { exampleManagedDisabled with Spec.SSHPublicKey := "ssh-rsa AAAAB3NzaC1yc2E" } ∧
    exampleManagedDisabledWithKey.Validate .acceptAll = .ok none ∧
    exampleManagedDisabledWithKey.ValidateUpdate .acceptAll exampleManagedDisabled =
      .ok (some (.invalid ""
        [⟨["Spec", "AADProfile", "ManagedAAD"], .boolPtr (some false),
          "field cannot be set to false"⟩,
         ⟨["Spec", "AADProfile", "AdminGroupObjectIDs"], .strSlicePtr (some []),
          "need atleast one AdminGroupObjectID"⟩])) :=
  ⟨rfl, rfl, rfl, rfl, rfl⟩

/-- C18, amended: the immutability check reports an entry for the SSH public
key only when old's key is non-empty and new's key differs from it.  In that
case the entry carries the new key and "field is immutable", and whenever the
profile-transition check returns normally `ValidateUpdate` returns the invalid
error with the immutability and transition entries.  When old's key is empty,
new agrees with old on every other compared field and on the profile, new
passes `Validate`, and the ManagedAuth (if populated) has the managed flag
true, `ValidateUpdate` succeeds. -/
theorem ssh_key_is_sticky (c : Collaborators) (r old : AzureManagedControlPlane) :
    (∀ e ∈ r.immutableFieldErrs old, e.Field = ["Spec", "SSHPublicKey"] →
      old.Spec.SSHPublicKey ≠ "" ∧ r.Spec.SSHPublicKey ≠ old.Spec.SSHPublicKey) ∧
    (old.Spec.SSHPublicKey ≠ "" → r.Spec.SSHPublicKey ≠ old.Spec.SSHPublicKey →
      field.Invalid ["Spec", "SSHPublicKey"] (.str r.Spec.SSHPublicKey) "field is immutable"
        ∈ r.immutableFieldErrs old ∧
      ∀ errs, r.validateUpdateAadProfile old.Spec.AADProfile = .ok errs →
        r.ValidateUpdate c old =
          .ok (some (.invalid r.Name (r.immutableFieldErrs old ++ errs)))) ∧
    (old.Spec.SSHPublicKey = "" →
      r.Spec.SubscriptionID = old.Spec.SubscriptionID →
      r.Spec.ResourceGroupName = old.Spec.ResourceGroupName →
      r.Spec.NodeResourceGroupName = old.Spec.NodeResourceGroupName →
      r.Spec.Location = old.Spec.Location →
      r.Spec.DNSServiceIP = old.Spec.DNSServiceIP →
      r.Spec.NetworkPlugin = old.Spec.NetworkPlugin →
      r.Spec.NetworkPolicy = old.Spec.NetworkPolicy →
      r.Spec.LoadBalancerSKU = old.Spec.LoadBalancerSKU →
      r.Spec.DefaultPoolRef = old.Spec.DefaultPoolRef →
      r.Spec.AADProfile = old.Spec.AADProfile →
      r.Validate c = .ok none →
      (∀ m, old.managedAuth = some m → m.Managed = some true) →
      r.ValidateUpdate c old = .ok none) := by
  have hentry : old.Spec.SSHPublicKey ≠ "" → r.Spec.SSHPublicKey ≠ old.Spec.SSHPublicKey →
      field.Invalid ["Spec", "SSHPublicKey"] (.str r.Spec.SSHPublicKey) "field is immutable"
        ∈ r.immutableFieldErrs old := by
    intro ho hn
    simp only [immutableFieldErrs_eq, List.mem_append, mem_stickyStringErrs]
    simp [ho, hn]
  refine ⟨?_, fun ho hn => ⟨hentry ho hn, fun errs herrs => ?_⟩, ?_⟩
  · intro e he hfield
    rw [immutableFieldErrs_eq] at he
    simp only [List.mem_append] at he
    have hid := field_of_mem_identityFieldErrs e
    have hss := field_of_mem_stickyStringErrs e
    have hsf := field_of_mem_stickyFieldErrs e
    rcases he with ((((((((h | h) | h) | h) | h) | h) | h) | h) | h) | h
    · simp [hid _ _ _ h] at hfield
    · simp [hid _ _ _ h] at hfield
    · simp [hid _ _ _ h] at hfield
    · simp [hid _ _ _ h] at hfield
    · obtain ⟨ho, hn, _⟩ := (mem_stickyStringErrs _ _ _ _).mp h
      exact ⟨ho, hn⟩
    · simp [hsf _ _ _ h] at hfield
    · simp [hsf _ _ _ h] at hfield
    · simp [hsf _ _ _ h] at hfield
    · simp [hsf _ _ _ h] at hfield
    · simp [hss _ _ _ h] at hfield
  · exact ValidateUpdate_of_entries c r old errs herrs
      (fun hnil => by
        have hmem := hentry ho hn
        rw [(List.append_eq_nil.mp hnil).1] at hmem
        simp at hmem)
  · intro h5 h1 h2 h3 h4 h6 h7 h8 h9 h10 haad hvalid hflag
    rw [ValidateUpdate_ok_none_iff]
    refine ⟨immutableFieldErrs_eq_nil r old h1 h2 h3 h4 (Or.inl h5) (Or.inr h6) (Or.inr h7)
      (Or.inr h8) (Or.inr h9) (Or.inr (by rw [h10])), ?_, hvalid⟩
    exact transition_same_profile r old haad ((Validate_ok_none_iff c r).mp hvalid).2.2.2 hflag

/-- C18, witness: a first key on `exampleManaged`, accepted by the key
checker. -/
theorem ssh_key_is_sticky_witness :
    exampleManaged.Spec.SSHPublicKey = "" ∧
    exampleManagedWithKey.Validate .acceptAll = .ok none ∧
    (∀ m, exampleManaged.managedAuth = some m → m.Managed = some true) ∧
    exampleManagedWithKey.ValidateUpdate .acceptAll exampleManaged = .ok none :=
  ⟨rfl, rfl, fun m hm => by cases hm; rfl,
    (ssh_key_is_sticky .acceptAll exampleManagedWithKey exampleManaged).2.2 rfl rfl rfl rfl rfl
      rfl rfl rfl rfl rfl rfl rfl (fun m hm => by cases hm; rfl)⟩

/-! ## The pool reference (C19) -/

/-- C19: the immutability check reports an entry for the pool reference if and
only if old's pool-reference name is non-empty and new's name differs from it;
the entry then carries the new name and the message "field is immutable". -/
theorem pool_reference_is_sticky (r old : AzureManagedControlPlane) (e : FieldError) :
    (e ∈ r.immutableFieldErrs old ∧ e.Field = ["Spec", "DefaultPoolRef", "Name"]) ↔
      (old.Spec.DefaultPoolRef.Name ≠ "" ∧
        r.Spec.DefaultPoolRef.Name ≠ old.Spec.DefaultPoolRef.Name ∧
        e = field.Invalid ["Spec", "DefaultPoolRef", "Name"] (.str r.Spec.DefaultPoolRef.Name)
          "field is immutable") := by
  constructor
  · rintro ⟨he, hfield⟩
    rw [immutableFieldErrs_eq] at he
    simp only [List.mem_append] at he
    have hid := field_of_mem_identityFieldErrs e
    have hss := field_of_mem_stickyStringErrs e
    have hsf := field_of_mem_stickyFieldErrs e
    rcases he with ((((((((h | h) | h) | h) | h) | h) | h) | h) | h) | h
    · simp [hid _ _ _ h] at hfield
    · simp [hid _ _ _ h] at hfield
    · simp [hid _ _ _ h] at hfield
    · simp [hid _ _ _ h] at hfield
    · simp [hss _ _ _ h] at hfield
    · simp [hsf _ _ _ h] at hfield
    · simp [hsf _ _ _ h] at hfield
    · simp [hsf _ _ _ h] at hfield
    · simp [hsf _ _ _ h] at hfield
    · exact (mem_stickyStringErrs _ _ _ _).mp h
  · rintro ⟨ho, hn, he⟩
    refine ⟨?_, by rw [he]; rfl⟩
    simp only [immutableFieldErrs_eq, List.mem_append, mem_stickyStringErrs]
    simp [ho, hn, he]

/-! ## Matching of regular expressions -/

/-- The empty expression matches nothing. -/
theorem Regex.matchList_empty (w : List Char) : Regex.matchList .empty w = false := by
  induction w with
  | nil => rfl
  | cons a w ih => simpa [Regex.matchList, Regex.deriv] using ih

/-- The expression `eps` matches exactly the empty input. -/
theorem Regex.matchList_eps (w : List Char) : Regex.matchList .eps w = true ↔ w = [] := by
  cases w with
  | nil => simp [Regex.matchList, Regex.nullable]
  | cons a w => simp [Regex.matchList, Regex.deriv, Regex.matchList_empty]

/-- A literal matches exactly the one-character input of that character. -/
theorem Regex.matchList_lit (c : Char) (w : List Char) :
    Regex.matchList (.lit c) w = true ↔ w = [c] := by
  cases w with
  | nil => simp [Regex.matchList, Regex.nullable]
  | cons a w =>
    by_cases h : a = c <;>
      simp [Regex.matchList, Regex.deriv, h, Regex.matchList_eps, Regex.matchList_empty]

/-- A range matches exactly the one-character inputs whose character lies in
the range. -/
theorem Regex.matchList_range (lo hi : Char) (w : List Char) :
    Regex.matchList (.range lo hi) w = true ↔
      ∃ a, w = [a] ∧ lo.toNat ≤ a.toNat ∧ a.toNat ≤ hi.toNat := by
  cases w with
  | nil => simp [Regex.matchList, Regex.nullable]
  | cons a w =>
    by_cases h : lo.toNat ≤ a.toNat ∧ a.toNat ≤ hi.toNat
    · simp only [Regex.matchList, Regex.deriv, h, and_self, if_true, Regex.matchList_eps]
      constructor
      · rintro rfl
        exact ⟨a, rfl, h⟩
      · rintro ⟨b, hb, _⟩
        simp only [List.cons.injEq] at hb
        exact hb.2
    · simp only [Regex.matchList, Regex.deriv, h, if_false, Regex.matchList_empty]
      simp only [Bool.false_eq_true, false_iff, not_exists, not_and]
      intro b hb
      simp only [List.cons.injEq] at hb
      rw [← hb.1]
      exact fun h1 h2 => h ⟨h1, h2⟩

/-- An alternation matches when one of its branches does. -/
theorem Regex.matchList_alt (r s : Regex) (w : List Char) :
    Regex.matchList (.alt r s) w = (Regex.matchList r w || Regex.matchList s w) := by
  induction w generalizing r s with
  | nil => rfl
  | cons a w ih => simp only [Regex.matchList, Regex.deriv, ih]

/-- A concatenation matches the inputs that split into a part matched by the
first expression and a part matched by the second. -/
theorem Regex.matchList_seq (r s : Regex) (w : List Char) :
    Regex.matchList (.seq r s) w = true ↔
      ∃ u v, w = u ++ v ∧ Regex.matchList r u = true ∧ Regex.matchList s v = true := by
  induction w generalizing r with
  | nil =>
    simp only [Regex.matchList, Regex.nullable, Bool.and_eq_true]
    constructor
    · intro h
      exact ⟨[], [], rfl, h.1, h.2⟩
    · rintro ⟨u, v, huv, hu, hv⟩
      obtain ⟨rfl, rfl⟩ := List.append_eq_nil.mp huv.symm
      exact ⟨hu, hv⟩
  | cons a w ih =>
    have hcons : Regex.matchList (.seq r s) (a :: w) = true ↔
        (Regex.matchList (.seq (r.deriv a) s) w = true ∨
          (r.nullable = true ∧ Regex.matchList s (a :: w) = true)) := by
      by_cases hn : r.nullable = true
      · simp [Regex.matchList, Regex.deriv, hn, Regex.matchList_alt]
      · simp [Regex.matchList, Regex.deriv, hn]
    rw [hcons, ih]
    constructor
    · rintro (⟨u, v, huv, hu, hv⟩ | ⟨hn, hs⟩)
      · exact ⟨a :: u, v, by simp [huv], hu, hv⟩
      · exact ⟨[], a :: w, rfl, hn, hs⟩
    · rintro ⟨u, v, huv, hu, hv⟩
      cases u with
      | nil =>
        right
        simp only [List.nil_append] at huv
        exact ⟨hu, by rw [huv]; exact hv⟩
      | cons b u =>
        left
        simp only [List.cons_append, List.cons.injEq] at huv
        obtain ⟨rfl, rfl⟩ := huv
        exact ⟨u, v, rfl, hu, hv⟩

/-- The star of a character class (an expression that matches exactly the
one-character inputs whose character satisfies `P`) matches exactly the inputs
all of whose characters satisfy `P`. -/
theorem Regex.matchList_star_class (r : Regex) (P : Char → Prop)
    (hr : ∀ w, Regex.matchList r w = true ↔ ∃ a, w = [a] ∧ P a) (w : List Char) :
    Regex.matchList (.star r) w = true ↔ ∀ c ∈ w, P c := by
  induction w with
  | nil => simp [Regex.matchList, Regex.nullable]
  | cons a w ih =>
    have hstep : Regex.matchList (.star r) (a :: w) =
        Regex.matchList (.seq (r.deriv a) (.star r)) w := rfl
    rw [hstep, Regex.matchList_seq]
    constructor
    · rintro ⟨u, v, huv, hu, hv⟩
      have hu2 : Regex.matchList r (a :: u) = true := hu
      obtain ⟨b, hb, hP⟩ := (hr _).mp hu2
      simp only [List.cons.injEq] at hb
      obtain ⟨rfl, rfl⟩ := hb
      simp only [List.nil_append] at huv
      subst huv
      intro c hc
      rcases List.mem_cons.mp hc with rfl | hc
      · exact hP
      · exact ih.mp hv c hc
    · intro h
      refine ⟨[], w, rfl, ?_, ih.mpr (fun c hc => h c (List.mem_cons_of_mem _ hc))⟩
      exact (hr [a]).mpr ⟨a, rfl, h a (List.mem_cons_self _ _)⟩

/-! ## The version pattern (C20) -/

/-- The number group of `kubeSemver` matches exactly the documented numbers. -/
theorem kubeSemverNumber_matches (n : List Char) :
    kubeSemverNumber.matchList n = true ↔ IsVersionNumber n := by
  have hdigits : ∀ w, Regex.matchList (.star (.range '0' '9')) w = true ↔
      ∀ c ∈ w, IsDecimalDigit c :=
    Regex.matchList_star_class _ IsDecimalDigit (fun w => Regex.matchList_range '0' '9' w)
  unfold kubeSemverNumber IsVersionNumber
  rw [Regex.matchList_alt, Bool.or_eq_true, Regex.matchList_lit, Regex.matchList_seq]
  constructor
  · rintro (h | ⟨u, v, huv, hu, hv⟩)
    · exact Or.inl h
    · obtain ⟨a, rfl, ha⟩ := (Regex.matchList_range _ _ _).mp hu
      exact Or.inr ⟨a, v, huv, ha, (hdigits v).mp hv⟩
  · rintro (h | ⟨first, rest, hn, hfirst, hrest⟩)
    · exact Or.inl h
    · exact Or.inr ⟨[first], rest, hn, (Regex.matchList_range _ _ _).mpr ⟨first, rfl, hfirst⟩,
        (hdigits rest).mpr hrest⟩

/-- The character class of `kubeSemver` matches exactly the one-character
inputs of a documented suffix character. -/
theorem kubeSemverSuffixClass_matches (w : List Char) :
    kubeSemverSuffixClass.matchList w = true ↔ ∃ a, w = [a] ∧ IsVersionSuffixChar a := by
  unfold kubeSemverSuffixClass IsVersionSuffixChar IsDecimalDigit
  simp only [Regex.matchList_alt, Bool.or_eq_true, Regex.matchList_lit, Regex.matchList_range]
  constructor
  · rintro (h | ⟨a, rfl, h⟩ | ⟨a, rfl, h⟩ | ⟨a, rfl, h⟩ | h | h | h)
    · exact ⟨'-', h, Or.inl rfl⟩
    · exact ⟨a, rfl, Or.inr (Or.inl h)⟩
    · exact ⟨a, rfl, Or.inr (Or.inr (Or.inr (Or.inl h)))⟩
    · exact ⟨a, rfl, Or.inr (Or.inr (Or.inl h))⟩
    · exact ⟨'_', h, Or.inr (Or.inr (Or.inr (Or.inr (Or.inl rfl))))⟩
    · exact ⟨'.', h, Or.inr (Or.inr (Or.inr (Or.inr (Or.inr (Or.inl rfl)))))⟩
    · exact ⟨'+', h, Or.inr (Or.inr (Or.inr (Or.inr (Or.inr (Or.inr rfl)))))⟩
  · rintro ⟨a, rfl, h | h | h | h | h | h | h⟩
    · exact Or.inl (by rw [h])
    · exact Or.inr (Or.inl ⟨a, rfl, h⟩)
    · exact Or.inr (Or.inr (Or.inr (Or.inl ⟨a, rfl, h⟩)))
    · exact Or.inr (Or.inr (Or.inl ⟨a, rfl, h⟩))
    · exact Or.inr (Or.inr (Or.inr (Or.inr (Or.inl (by rw [h])))))
    · exact Or.inr (Or.inr (Or.inr (Or.inr (Or.inr (Or.inl (by rw [h]))))))
    · exact Or.inr (Or.inr (Or.inr (Or.inr (Or.inr (Or.inr (by rw [h]))))))

/-- The optional suffix group of `kubeSemver` matches exactly the inputs made
of documented suffix characters. -/
theorem kubeSemverSuffix_matches (w : List Char) :
    Regex.matchList (.alt (.star kubeSemverSuffixClass) .eps) w = true ↔
      ∀ c ∈ w, IsVersionSuffixChar c := by
  rw [Regex.matchList_alt, Bool.or_eq_true,
    Regex.matchList_star_class _ IsVersionSuffixChar kubeSemverSuffixClass_matches,
    Regex.matchList_eps]
  constructor
  · rintro (h | rfl)
    · exact h
    · simp
  · exact Or.inl

/-- The pattern `kubeSemver` matches a string exactly when the string has the
documented form. -/
theorem kubeSemver_matches_iff (s : String) :
    kubeSemver.MatchString s = true ↔ HasVersionForm s := by
  unfold Regex.MatchString kubeSemver HasVersionForm
  simp only [Regex.matchList_seq, Regex.matchList_lit, kubeSemverNumber_matches,
    kubeSemverSuffix_matches]
  constructor
  · rintro ⟨_, w1, h0, rfl, major, w2, rfl, hmajor, _, w3, rfl, rfl, minor, w4, rfl, hminor, _,
      w5, rfl, rfl, patch, suffix, rfl, hpatch, hsuffix⟩
    exact ⟨major, minor, patch, suffix, by simpa using h0, hmajor, hminor, hpatch, hsuffix⟩
  · rintro ⟨major, minor, patch, suffix, hs, hmajor, hminor, hpatch, hsuffix⟩
    exact ⟨['v'], _, by simpa using hs, rfl, major, _, rfl, hmajor, ['.'], _, rfl, rfl, minor, _,
      rfl, hminor, ['.'], _, rfl, rfl, patch, suffix, rfl, hpatch, hsuffix⟩

/-- The full stop is not a decimal digit. -/
theorem not_isDecimalDigit_dot : ¬ IsDecimalDigit '.' := by
  unfold IsDecimalDigit
  decide

/-- Every character of a documented number is a decimal digit. -/
theorem IsVersionNumber.digits {n : List Char} (h : IsVersionNumber n) :
    ∀ c ∈ n, IsDecimalDigit c := by
  rcases h with rfl | ⟨first, rest, rfl, hfirst, hrest⟩
  · intro c hc
    rw [List.mem_singleton.mp hc]
    unfold IsDecimalDigit
    decide
  · intro c hc
    rcases List.mem_cons.mp hc with rfl | hc
    · exact ⟨Nat.le_trans (by decide) hfirst.1, hfirst.2⟩
    · exact hrest c hc

/-- A documented number followed by a full stop does not begin with the digit 0
followed by another digit. -/
theorem IsVersionNumber.no_leading_zero {n : List Char} (h : IsVersionNumber n)
    (tail rest : List Char) (d : Char) (hd : IsDecimalDigit d)
    (heq : n ++ '.' :: tail = '0' :: d :: rest) : False := by
  rcases h with rfl | ⟨first, more, rfl, hfirst, _⟩
  · simp only [List.singleton_append, List.cons.injEq, true_and] at heq
    rw [← heq.1] at hd
    exact not_isDecimalDigit_dot hd
  · simp only [List.cons_append, List.cons.injEq] at heq
    rw [heq.1] at hfirst
    exact absurd hfirst.1 (by decide)

/-- Two digit sequences, each followed by a full stop, that begin the same
input are equal, and so are the remainders. -/
theorem digits_dot_split (u u2 x x2 : List Char) (hu : ∀ c ∈ u, IsDecimalDigit c)
    (hu2 : ∀ c ∈ u2, IsDecimalDigit c) (heq : u ++ '.' :: x = u2 ++ '.' :: x2) :
    u = u2 ∧ x = x2 := by
  induction u generalizing u2 with
  | nil =>
    cases u2 with
    | nil => simpa using heq
    | cons b u2 =>
      simp only [List.nil_append, List.cons_append, List.cons.injEq] at heq
      exact absurd (heq.1 ▸ hu2 b (List.mem_cons_self _ _)) not_isDecimalDigit_dot
  | cons a u ih =>
    cases u2 with
    | nil =>
      simp only [List.nil_append, List.cons_append, List.cons.injEq] at heq
      exact absurd (heq.1 ▸ hu a (List.mem_cons_self _ _)) not_isDecimalDigit_dot
    | cons b u2 =>
      simp only [List.cons_append, List.cons.injEq] at heq
      obtain ⟨h1, h2⟩ := ih u2 (fun c hc => hu c (List.mem_cons_of_mem _ hc))
        (fun c hc => hu2 c (List.mem_cons_of_mem _ hc)) heq.2
      exact ⟨by rw [heq.1, h1], h2⟩

/-- The method `validateVersion` returns nil when the pattern matches and the
semantic-version error otherwise. -/
theorem validateVersion_eq (r : AzureManagedControlPlane) :
    (r.validateVersion = none ↔ kubeSemver.MatchString r.Spec.Version = true) ∧
    (r.validateVersion = some (errors.New "must be a valid semantic version") ↔
      ¬ kubeSemver.MatchString r.Spec.Version = true) := by
  cases h : kubeSemver.MatchString r.Spec.Version <;> simp [validateVersion, h]

/-- C20: `validateVersion` succeeds if and only if the version as a whole has
the documented form `v` MAJOR `.` MINOR `.` PATCH SUFFIX, and fails with the
semantic-version error otherwise.  In particular it fails for the empty
string, for "1.19.0" and "honk", for every string that does not begin with
`v`, and for every string whose major number or minor number has a leading
zero. -/
theorem validateVersion_decides_pattern (r : AzureManagedControlPlane) :
    (r.validateVersion = none ↔ HasVersionForm r.Spec.Version) ∧
    (r.validateVersion = some (errors.New "must be a valid semantic version") ↔
      ¬ HasVersionForm r.Spec.Version) ∧
    (r.Spec.Version = "" →
      r.validateVersion = some (errors.New "must be a valid semantic version")) ∧
    (r.Spec.Version = "1.19.0" ∨ r.Spec.Version = "honk" →
      r.validateVersion = some (errors.New "must be a valid semantic version")) ∧
    ((∀ rest, r.Spec.Version.toList ≠ 'v' :: rest) →
      r.validateVersion = some (errors.New "must be a valid semantic version")) ∧
    (∀ d rest, IsDecimalDigit d → r.Spec.Version.toList = 'v' :: '0' :: d :: rest →
      r.validateVersion = some (errors.New "must be a valid semantic version")) ∧
    (∀ major d rest, (∀ c ∈ major, IsDecimalDigit c) → IsDecimalDigit d →
      r.Spec.Version.toList = 'v' :: (major ++ '.' :: '0' :: d :: rest) →
      r.validateVersion = some (errors.New "must be a valid semantic version")) := by
  have hok : r.validateVersion = none ↔ HasVersionForm r.Spec.Version := by
    rw [(validateVersion_eq r).1, kubeSemver_matches_iff]
  have hfail : r.validateVersion = some (errors.New "must be a valid semantic version") ↔
      ¬ HasVersionForm r.Spec.Version := by
    rw [(validateVersion_eq r).2, kubeSemver_matches_iff]
  have hv : (∀ rest, r.Spec.Version.toList ≠ 'v' :: rest) →
      r.validateVersion = some (errors.New "must be a valid semantic version") := by
    intro h
    rw [hfail]
    rintro ⟨major, minor, patch, suffix, hs, _⟩
    exact h _ hs
  refine ⟨hok, hfail, ?_, ?_, hv, ?_, ?_⟩
  · intro h
    apply hv
    intro rest
    rw [h]
    simp
  · intro h
    apply hv
    intro rest
    intro hc
    have hhead : r.Spec.Version.toList.head? = some 'v' := by rw [hc]; rfl
    rcases h with h | h <;> rw [h] at hhead <;> exact absurd hhead (by decide)
  · intro d rest hd hs
    rw [hfail]
    rintro ⟨major, minor, patch, suffix, hform, hmajor, _⟩
    rw [hs] at hform
    simp only [List.cons.injEq, true_and] at hform
    exact hmajor.no_leading_zero _ rest d hd hform.symm
  · intro major0 d rest hmajor0 hd hs
    rw [hfail]
    rintro ⟨major, minor, patch, suffix, hform, hmajor, hminor, _⟩
    rw [hs] at hform
    simp only [List.cons.injEq, true_and] at hform
    obtain ⟨_, hrest⟩ := digits_dot_split major0 major _ _ hmajor0 hmajor.digits hform
    exact hminor.no_leading_zero _ rest d hd hrest.symm

/-! ## The result of defaulting -/

/-- The object returned by `setDefaultSubnet`. -/
theorem setDefaultSubnet_eq (r : AzureManagedControlPlane) :
    r.setDefaultSubnet =
      { r with Spec.VirtualNetwork.Subnet.Name :=
          if r.Spec.VirtualNetwork.Subnet.Name = "" then r.Name
          else r.Spec.VirtualNetwork.Subnet.Name } := by
  unfold setDefaultSubnet
  split <;> rename_i h <;> simp [h]

/-- The object returned by `setDefaultVirtualNetwork`. -/
theorem setDefaultVirtualNetwork_eq (r : AzureManagedControlPlane) :
    r.setDefaultVirtualNetwork =
      { r with Spec.VirtualNetwork.Name :=
          if r.Spec.VirtualNetwork.Name = "" then r.Name else r.Spec.VirtualNetwork.Name } := by
  unfold setDefaultVirtualNetwork
  split <;> rename_i h <;> simp [h]

/-- The object returned by `setDefaultNodeResourceGroupName`. -/
theorem setDefaultNodeResourceGroupName_eq (r : AzureManagedControlPlane) :
    r.setDefaultNodeResourceGroupName =
      { r with Spec.NodeResourceGroupName :=
          if r.Spec.NodeResourceGroupName = "" then
            "MC_" ++ r.Spec.ResourceGroupName ++ "_" ++ r.Name ++ "_" ++ r.Spec.Location
          else r.Spec.NodeResourceGroupName } := by
  unfold setDefaultNodeResourceGroupName
  split <;> rename_i h <;> simp [h]

/-- The object returned by `setDefaultSSHPublicKey`. -/
theorem setDefaultSSHPublicKey_eq (generated : Option String) (r : AzureManagedControlPlane) :
    (r.setDefaultSSHPublicKey generated).1 =
      { r with Spec.SSHPublicKey :=
          if r.Spec.SSHPublicKey = "" then generated.getD r.Spec.SSHPublicKey
          else r.Spec.SSHPublicKey } := by
  unfold setDefaultSSHPublicKey
  split <;> rename_i h
  · cases generated
    · obtain ⟨name, spec⟩ := r
      obtain ⟨_, _, _, _, _, ssh, _, _, _, _, _, _, _⟩ := spec
      simp only at h
      subst h
      rfl
    · simp [h]
  · simp [h]

/-- The method `Default` is the composition of its eight steps. -/
theorem Default_steps (generated : Option String) (r : AzureManagedControlPlane) :
    r.Default generated =
      (((r.defaultNetworkPlugin.defaultLoadBalancerSKU.defaultNetworkPolicy.defaultVersion
        |>.setDefaultSSHPublicKey generated).1).setDefaultNodeResourceGroupName
        ).setDefaultVirtualNetwork.setDefaultSubnet := rfl

/-- The object returned by the network-plugin step. -/
theorem defaultNetworkPlugin_eq (r : AzureManagedControlPlane) :
    r.defaultNetworkPlugin =
      { r with Spec.NetworkPlugin := some (r.Spec.NetworkPlugin.getD "azure") } := by
  unfold defaultNetworkPlugin
  cases h : r.Spec.NetworkPlugin with
  | none => simp
  | some value =>
    obtain ⟨name, spec⟩ := r
    obtain ⟨_, _, _, _, _, _, _, plugin, _, _, _, _, _⟩ := spec
    simp only at h
    subst h
    rfl

/-- The object returned by the load-balancer step. -/
theorem defaultLoadBalancerSKU_eq (r : AzureManagedControlPlane) :
    r.defaultLoadBalancerSKU =
      { r with Spec.LoadBalancerSKU := some (r.Spec.LoadBalancerSKU.getD "Standard") } := by
  unfold defaultLoadBalancerSKU
  cases h : r.Spec.LoadBalancerSKU with
  | none => simp
  | some value =>
    obtain ⟨name, spec⟩ := r
    obtain ⟨_, _, _, _, _, _, _, _, _, sku, _, _, _⟩ := spec
    simp only at h
    subst h
    rfl

/-- The object returned by the network-policy step. -/
theorem defaultNetworkPolicy_eq (r : AzureManagedControlPlane) :
    r.defaultNetworkPolicy =
      { r with Spec.NetworkPolicy := some (r.Spec.NetworkPolicy.getD "calico") } := by
  unfold defaultNetworkPolicy
  cases h : r.Spec.NetworkPolicy with
  | none => simp
  | some value =>
    obtain ⟨name, spec⟩ := r
    obtain ⟨_, _, _, _, _, _, _, _, policy, _, _, _, _⟩ := spec
    simp only at h
    subst h
    rfl

/-- The object returned by the version step. -/
theorem defaultVersion_eq (r : AzureManagedControlPlane) :
    r.defaultVersion =
      { r with Spec.Version :=
          if r.Spec.Version ≠ "" ∧ strings.HasPrefix r.Spec.Version "v" = false then
            "v" ++ r.Spec.Version
          else r.Spec.Version } := by
  unfold defaultVersion
  by_cases h : r.Spec.Version ≠ "" ∧ strings.HasPrefix r.Spec.Version "v" = false
  · have h2 : r.Spec.Version ≠ "" ∧ (! strings.HasPrefix r.Spec.Version "v") = true := by
      simpa using h
    rw [if_pos h2, if_pos h]
  · have h2 : ¬ (r.Spec.Version ≠ "" ∧ (! strings.HasPrefix r.Spec.Version "v") = true) := by
      simpa using h
    rw [if_neg h2, if_neg h]

/-- The object returned by `Default`, field by field. -/
theorem Default_eq (generated : Option String) (r : AzureManagedControlPlane) :
    r.Default generated =
      { Name := r.Name,
        Spec :=
          { Version :=
              if r.Spec.Version ≠ "" ∧ strings.HasPrefix r.Spec.Version "v" = false then
                "v" ++ r.Spec.Version
              else r.Spec.Version,
            ResourceGroupName := r.Spec.ResourceGroupName,
            NodeResourceGroupName :=
              if r.Spec.NodeResourceGroupName = "" then
                "MC_" ++ r.Spec.ResourceGroupName ++ "_" ++ r.Name ++ "_" ++ r.Spec.Location
              else r.Spec.NodeResourceGroupName,
            SubscriptionID := r.Spec.SubscriptionID,
            Location := r.Spec.Location,
            SSHPublicKey :=
              if r.Spec.SSHPublicKey = "" then generated.getD r.Spec.SSHPublicKey
              else r.Spec.SSHPublicKey,
            DNSServiceIP := r.Spec.DNSServiceIP,
            NetworkPlugin := some (r.Spec.NetworkPlugin.getD "azure"),
            NetworkPolicy := some (r.Spec.NetworkPolicy.getD "calico"),
            LoadBalancerSKU := some (r.Spec.LoadBalancerSKU.getD "Standard"),
            DefaultPoolRef := r.Spec.DefaultPoolRef,
            AADProfile := r.Spec.AADProfile,
            VirtualNetwork :=
              { Name :=
                  if r.Spec.VirtualNetwork.Name = "" then r.Name else r.Spec.VirtualNetwork.Name,
                Subnet :=
                  { Name :=
                      if r.Spec.VirtualNetwork.Subnet.Name = "" then r.Name
                      else r.Spec.VirtualNetwork.Subnet.Name } } } } := by
  rw [Default_steps]
  simp only [setDefaultSubnet_eq, setDefaultVirtualNetwork_eq, setDefaultNodeResourceGroupName_eq,
    setDefaultSSHPublicKey_eq, defaultVersion_eq, defaultNetworkPolicy_eq,
    defaultLoadBalancerSKU_eq, defaultNetworkPlugin_eq]

/-! ## The DNS service IP validator (C21) -/

/-- C21: with `net.ParseIP` as the IP checker, `validateDNSServiceIP` succeeds
when the DNS service IP is absent; when it is present it succeeds if and only
if the string is an IPv4 or an IPv6 literal, and fails with the invalid-IP
error otherwise.  So "192.168.0.0" passes, and "192.168.0.0.3" and the
present-but-empty string fail. -/
theorem validateDNSServiceIP_decides (c : Collaborators) (r : AzureManagedControlPlane)
    (hc : c.ParseIP = net.ParseIP) :
    (r.Spec.DNSServiceIP = none → r.validateDNSServiceIP c = none) ∧
    (∀ ip, r.Spec.DNSServiceIP = some ip →
      (r.validateDNSServiceIP c = none ↔
        (isIPv4Literal ip.toList = true ∨ isIPv6Literal ip.toList = true)) ∧
      (r.validateDNSServiceIP c = some (errors.New "DNSServiceIP must be a valid IP") ↔
        ¬ (isIPv4Literal ip.toList = true ∨ isIPv6Literal ip.toList = true))) ∧
    (r.Spec.DNSServiceIP = some "192.168.0.0" → r.validateDNSServiceIP c = none) ∧
    (r.Spec.DNSServiceIP = some "192.168.0.0.3" →
      r.validateDNSServiceIP c = some (errors.New "DNSServiceIP must be a valid IP")) ∧
    (r.Spec.DNSServiceIP = some "" →
      r.validateDNSServiceIP c = some (errors.New "DNSServiceIP must be a valid IP")) := by
  have hpresent : ∀ ip, r.Spec.DNSServiceIP = some ip →
      (r.validateDNSServiceIP c = none ↔
        (isIPv4Literal ip.toList = true ∨ isIPv6Literal ip.toList = true)) ∧
      (r.validateDNSServiceIP c = some (errors.New "DNSServiceIP must be a valid IP") ↔
        ¬ (isIPv4Literal ip.toList = true ∨ isIPv6Literal ip.toList = true)) := by
    intro ip hip
    have hparse : c.ParseIP ip = (isIPv4Literal ip.toList || isIPv6Literal ip.toList) := by
      rw [hc]
      rfl
    cases h4 : isIPv4Literal ip.toList <;> cases h6 : isIPv6Literal ip.toList <;>
      simp only [validateDNSServiceIP, hip, hparse, h4, h6] <;> simp
  refine ⟨fun h => by simp [validateDNSServiceIP, h], hpresent, fun h => ?_, fun h => ?_,
    fun h => ?_⟩
  · exact (hpresent _ h).1.mpr (by decide)
  · exact (hpresent _ h).2.mpr (by decide)
  · exact (hpresent _ h).2.mpr (by decide)

/-- C21, witness: the object with the DNS service IP "192.168.0.0". -/
theorem validateDNSServiceIP_decides_witness :
    Collaborators.withParseIP.ParseIP = net.ParseIP ∧
    exampleWithDNS.Spec.DNSServiceIP = some "192.168.0.0" ∧
    exampleWithDNS.validateDNSServiceIP .withParseIP = none :=
  ⟨rfl, rfl, (validateDNSServiceIP_decides .withParseIP exampleWithDNS rfl).2.2.1 rfl⟩

/-! ## Aggregation in Validate (C22) -/

/-- C22, the code at the failing input: the version "honk" fails the version
validator and the ManagedAuth has the managed flag true and no admin-ID list;
`Validate` does not return the aggregate of the failures but panics in the
profile validator. -/
theorem validate_aggregate_lost_in_panic :
    exampleBadVersionNoList.validateVersion =
      some (.errorString "must be a valid semantic version") ∧
    exampleBadVersionNoList.validateAadProfile = .error .nilDereference ∧
    exampleBadVersionNoList.Validate .rejectAll = .error .nilDereference :=
  ⟨rfl, rfl, rfl⟩

/-! ## Network defaults (C23) -/

/-- C23: after `Default` the network plugin, the load-balancer SKU and the
network policy are all set; each equals "azure", "Standard" and "calico"
respectively when it was unset before, and its previous value when it was set
before. -/
theorem Default_network_defaults (generated : Option String) (r : AzureManagedControlPlane) :
    ((r.Default generated).Spec.NetworkPlugin.isSome = true ∧
      (r.Default generated).Spec.LoadBalancerSKU.isSome = true ∧
      (r.Default generated).Spec.NetworkPolicy.isSome = true) ∧
    ((r.Spec.NetworkPlugin = none → (r.Default generated).Spec.NetworkPlugin = some "azure") ∧
      (r.Spec.LoadBalancerSKU = none →
        (r.Default generated).Spec.LoadBalancerSKU = some "Standard") ∧
      (r.Spec.NetworkPolicy = none →
        (r.Default generated).Spec.NetworkPolicy = some "calico")) ∧
    ((∀ value, r.Spec.NetworkPlugin = some value →
        (r.Default generated).Spec.NetworkPlugin = some value) ∧
      (∀ value, r.Spec.LoadBalancerSKU = some value →
        (r.Default generated).Spec.LoadBalancerSKU = some value) ∧
      (∀ value, r.Spec.NetworkPolicy = some value →
        (r.Default generated).Spec.NetworkPolicy = some value)) := by
  rw [Default_eq]
  refine ⟨⟨rfl, rfl, rfl⟩, ⟨fun h => ?_, fun h => ?_, fun h => ?_⟩,
    ⟨fun v h => ?_, fun v h => ?_, fun v h => ?_⟩⟩ <;> simp [h]

/-! ## Version normalization (C24) -/

/-- A string has the one-character string "v" as a leading part exactly when
its first character is `v`. -/
theorem HasPrefix_v_iff (s : String) :
    strings.HasPrefix s "v" = true ↔ ∃ rest, s.toList = 'v' :: rest := by
  unfold strings.HasPrefix
  have hv : "v".toList = ['v'] := rfl
  rw [hv]
  cases h : s.toList with
  | nil => simp [List.isPrefixOf]
  | cons a rest => simp [List.isPrefixOf]; exact eq_comm

/-- C24: if the version is non-empty and does not begin with `v`, then after
`Default` the version is "v" followed by the old version (so "1.17.5" becomes
"v1.17.5"); an empty version and a version that begins with `v` are left
unchanged. -/
theorem Default_version (generated : Option String) (r : AzureManagedControlPlane) :
    (r.Spec.Version ≠ "" → (∀ rest, r.Spec.Version.toList ≠ 'v' :: rest) →
      (r.Default generated).Spec.Version = "v" ++ r.Spec.Version) ∧
    (r.Spec.Version = "1.17.5" → (r.Default generated).Spec.Version = "v1.17.5") ∧
    (r.Spec.Version = "" → (r.Default generated).Spec.Version = "") ∧
    (∀ rest, r.Spec.Version.toList = 'v' :: rest →
      (r.Default generated).Spec.Version = r.Spec.Version) := by
  rw [Default_eq]
  have hadd : r.Spec.Version ≠ "" → (∀ rest, r.Spec.Version.toList ≠ 'v' :: rest) →
      (if r.Spec.Version ≠ "" ∧ strings.HasPrefix r.Spec.Version "v" = false then
        "v" ++ r.Spec.Version else r.Spec.Version) = "v" ++ r.Spec.Version := by
    intro hne hv
    have hp : strings.HasPrefix r.Spec.Version "v" = false := by
      cases hpre : strings.HasPrefix r.Spec.Version "v" with
      | false => rfl
      | true =>
        obtain ⟨rest, hrest⟩ := (HasPrefix_v_iff _).mp hpre
        exact absurd hrest (hv rest)
    rw [if_pos ⟨hne, hp⟩]
  refine ⟨hadd, fun h => ?_, fun h => ?_, fun rest h => ?_⟩
  · show (if r.Spec.Version ≠ "" ∧ strings.HasPrefix r.Spec.Version "v" = false then
      "v" ++ r.Spec.Version else r.Spec.Version) = "v1.17.5"
    have hnov : ∀ rest, r.Spec.Version.toList ≠ 'v' :: rest := by
      intro rest hc
      have hhead : r.Spec.Version.toList.head? = some 'v' := by rw [hc]; rfl
      rw [h] at hhead
      exact absurd hhead (by decide)
    rw [hadd (by rw [h]; decide) hnov, h]
    rfl
  · show (if r.Spec.Version ≠ "" ∧ strings.HasPrefix r.Spec.Version "v" = false then
      "v" ++ r.Spec.Version else r.Spec.Version) = ""
    rw [if_neg (by simp [h]), h]
  · show (if r.Spec.Version ≠ "" ∧ strings.HasPrefix r.Spec.Version "v" = false then
      "v" ++ r.Spec.Version else r.Spec.Version) = r.Spec.Version
    have hp : strings.HasPrefix r.Spec.Version "v" = true := (HasPrefix_v_iff _).mpr ⟨rest, h⟩
    rw [if_neg (by simp [hp])]

/-! ## The frame of Default (C26) -/

/-- C26: `Default` leaves the authentication profile unchanged, and with it the
object's name, the subscription ID, the resource-group name, the location, the
DNS service IP and the pool reference; the fields it may change are the network
plugin, the load-balancer SKU, the network policy, the version, the SSH public
key, the node-resource-group name and the network and subnet names. -/
theorem Default_frame (generated : Option String) (r : AzureManagedControlPlane) :
    (r.Default generated).Spec.AADProfile = r.Spec.AADProfile ∧
    (r.Default generated).Name = r.Name ∧
    (r.Default generated).Spec.SubscriptionID = r.Spec.SubscriptionID ∧
    (r.Default generated).Spec.ResourceGroupName = r.Spec.ResourceGroupName ∧
    (r.Default generated).Spec.Location = r.Spec.Location ∧
    (r.Default generated).Spec.DNSServiceIP = r.Spec.DNSServiceIP ∧
    (r.Default generated).Spec.DefaultPoolRef = r.Spec.DefaultPoolRef := by
  rw [Default_eq]
  exact ⟨rfl, rfl, rfl, rfl, rfl, rfl, rfl⟩

/-! ## ValidateCreate and the Defaulter (C25) -/

/-- C25, counterexample: the version is "1.17.5" and the other validators
report nothing, yet `ValidateCreate` fails with the version error: it validates
the object as given and does not run `Default`. -/
theorem create_without_default_counterexample :
    exampleFoo.Spec.Version = "1.17.5" ∧
    exampleFoo.validateDNSServiceIP .rejectAll = none ∧
    exampleFoo.validateSSHKey .rejectAll = none ∧
    exampleFoo.validateAadProfile = .ok none ∧
    exampleFoo.ValidateCreate .rejectAll =
      .ok (some (.aggregate [.errorString "must be a valid semantic version"])) :=
  ⟨rfl, rfl, rfl, rfl, rfl⟩

/-- The characters of "v" followed by a string. -/
theorem toList_v_append (s : String) : ("v" ++ s).toList = 'v' :: s.toList := by
  show ("v" ++ s).data = 'v' :: s.data
  rw [String.data_append]
  rfl

/-- The version after `Default`: "v" is prepended when the version is non-empty
and does not begin with "v". -/
theorem Default_version_eq (generated : Option String) (r : AzureManagedControlPlane) :
    (r.Default generated).Spec.Version =
      if r.Spec.Version ≠ "" ∧ strings.HasPrefix r.Spec.Version "v" = false then
        "v" ++ r.Spec.Version
      else r.Spec.Version := by
  rw [Default_eq]

/-- After `Default`, a non-empty version that does not begin with `v` is "v"
followed by the old version. -/
theorem Default_version_of_no_v (generated : Option String) (r : AzureManagedControlPlane)
    (hne : r.Spec.Version ≠ "") (hv : ∀ rest, r.Spec.Version.toList ≠ 'v' :: rest) :
    (r.Default generated).Spec.Version = "v" ++ r.Spec.Version := by
  have hp : strings.HasPrefix r.Spec.Version "v" = false := by
    cases hpre : strings.HasPrefix r.Spec.Version "v" with
    | false => rfl
    | true =>
      obtain ⟨rest, hrest⟩ := (HasPrefix_v_iff _).mp hpre
      exact absurd hrest (hv rest)
  rw [Default_version_eq, if_pos ⟨hne, hp⟩]

/-- After `Default`, an empty version is still empty. -/
theorem Default_version_of_empty (generated : Option String) (r : AzureManagedControlPlane)
    (h : r.Spec.Version = "") : (r.Default generated).Spec.Version = "" := by
  rw [Default_version_eq, if_neg (by simp [h]), h]

/-- A version `MAJOR.MINOR.PATCH` without the leading `v` fails the version
validator, and the version "v" followed by it passes. -/
theorem version_without_v (r d : AzureManagedControlPlane) (major minor patch : List Char)
    (hform : r.Spec.Version.toList = major ++ '.' :: (minor ++ '.' :: patch))
    (hmajor : IsVersionNumber major) (hminor : IsVersionNumber minor)
    (hpatch : IsVersionNumber patch) (hd : d.Spec.Version = "v" ++ r.Spec.Version) :
    r.Spec.Version ≠ "" ∧ (∀ rest, r.Spec.Version.toList ≠ 'v' :: rest) ∧
    r.validateVersion = some (errors.New "must be a valid semantic version") ∧
    d.validateVersion = none := by
  have hfirst : ∃ first rest, major = first :: rest ∧ IsDecimalDigit first := by
    rcases hmajor with rfl | ⟨first, more, rfl, hfirst, _⟩
    · exact ⟨'0', [], rfl, by unfold IsDecimalDigit; decide⟩
    · exact ⟨first, more, rfl, ⟨Nat.le_trans (by decide) hfirst.1, hfirst.2⟩⟩
  obtain ⟨first, more, rfl, hdigit⟩ := hfirst
  have hnov : ∀ rest, r.Spec.Version.toList ≠ 'v' :: rest := by
    intro rest hc
    rw [hform] at hc
    simp only [List.cons_append, List.cons.injEq] at hc
    rw [hc.1] at hdigit
    exact absurd hdigit (by unfold IsDecimalDigit; decide)
  have hne : r.Spec.Version ≠ "" := by
    intro hc
    rw [hc] at hform
    simp at hform
  refine ⟨hne, hnov, ?_, ?_⟩
  · rw [(validateVersion_eq r).2, kubeSemver_matches_iff]
    rintro ⟨_, _, _, _, hs, _⟩
    exact hnov _ hs
  · rw [(validateVersion_eq d).1, kubeSemver_matches_iff, hd]
    exact ⟨first :: more, minor, patch, [], by rw [toList_v_append, hform]; simp, hmajor, hminor,
      hpatch, by simp⟩

/-- C25, amended: `ValidateCreate` is `Validate` on the object as given; it
does not run `Default`.  For a version `MAJOR.MINOR.PATCH` without the leading
`v`, `ValidateCreate` on the object as given does not succeed, while on the
defaulted object the version is "v" followed by the old version and passes the
version validator, and `ValidateCreate` succeeds when the three other
validators report nothing.  For an empty version `ValidateCreate` succeeds
neither on the object as given nor on the defaulted object. -/
theorem create_validates_as_given (c : Collaborators) (generated : Option String)
    (r : AzureManagedControlPlane) :
    r.ValidateCreate c = r.Validate c ∧
    (∀ major minor patch,
      r.Spec.Version.toList = major ++ '.' :: (minor ++ '.' :: patch) →
      IsVersionNumber major → IsVersionNumber minor → IsVersionNumber patch →
      r.ValidateCreate c ≠ .ok none ∧
      (r.Default generated).Spec.Version = "v" ++ r.Spec.Version ∧
      (r.Default generated).validateVersion = none ∧
      ((r.Default generated).validateDNSServiceIP c = none →
        (r.Default generated).validateSSHKey c = none →
        (r.Default generated).validateAadProfile = .ok none →
        (r.Default generated).ValidateCreate c = .ok none)) ∧
    (r.Spec.Version = "" →
      r.ValidateCreate c ≠ .ok none ∧ (r.Default generated).ValidateCreate c ≠ .ok none) := by
  refine ⟨rfl, ?_, ?_⟩
  · intro major minor patch hform hmajor hminor hpatch
    have hne : r.Spec.Version ≠ "" := by
      intro hc
      rw [hc] at hform
      have hlen := congrArg List.length hform
      simp at hlen
      omega
    have hfirst : ∀ rest, r.Spec.Version.toList ≠ 'v' :: rest := by
      intro rest hc
      rw [hform] at hc
      rcases hmajor with rfl | ⟨first, more, rfl, hrange, _⟩
      · simp at hc
      · simp only [List.cons_append, List.cons.injEq] at hc
        rw [hc.1] at hrange
        exact absurd hrange.2 (by decide)
    have hd : (r.Default generated).Spec.Version = "v" ++ r.Spec.Version :=
      Default_version_of_no_v generated r hne hfirst
    obtain ⟨_, _, hfail, hpass⟩ :=
      version_without_v r (r.Default generated) major minor patch hform hmajor hminor hpatch hd
    refine ⟨?_, hd, hpass, fun hdns hssh haad => ?_⟩
    · intro hok
      have hv := ((Validate_ok_none_iff c r).mp hok).1
      rw [hfail] at hv
      exact absurd hv (by simp)
    · exact (Validate_ok_none_iff c _).mpr ⟨hpass, hdns, hssh, haad⟩
  · intro hempty
    have hfail : ∀ x : AzureManagedControlPlane, x.Spec.Version = "" →
        x.ValidateCreate c ≠ .ok none := by
      intro x hx hok
      have hv := ((Validate_ok_none_iff c x).mp hok).1
      rw [(validateVersion_eq x).1, hx] at hv
      exact absurd hv (by decide)
    exact ⟨hfail r hempty, hfail _ (Default_version_of_empty generated r hempty)⟩

/-- C25, witness: the object of the defaulting test, version "1.17.5". -/
theorem create_validates_as_given_witness :
    exampleFoo.Spec.Version.toList = ['1'] ++ '.' :: (['1', '7'] ++ '.' :: ['5']) ∧
    IsVersionNumber ['1'] ∧ IsVersionNumber ['1', '7'] ∧ IsVersionNumber ['5'] ∧
    exampleFoo.ValidateCreate .rejectAll ≠ .ok none ∧
    (exampleFoo.Default none).Spec.Version = "v" ++ exampleFoo.Spec.Version ∧
    (exampleFoo.Default none).ValidateCreate .rejectAll = .ok none :=
  have h1 : IsVersionNumber ['1'] :=
    Or.inr ⟨'1', [], rfl, by decide, by simp⟩
  have h17 : IsVersionNumber ['1', '7'] :=
    Or.inr ⟨'1', ['7'], rfl, by decide, by
      intro c hc
      rw [List.mem_singleton.mp hc]
      unfold IsDecimalDigit
      decide⟩
  have h5 : IsVersionNumber ['5'] :=
    Or.inr ⟨'5', [], rfl, by decide, by simp⟩
  have h := (create_validates_as_given .rejectAll none exampleFoo).2.1 ['1'] ['1', '7'] ['5']
    rfl h1 h17 h5
  ⟨rfl, h1, h17, h5, h.1, h.2.1, h.2.2.2 rfl rfl rfl⟩

/-! ## Totality of ValidateUpdate (C27) -/

/-- C27, the code at the failing inputs: old and new both have ManagedAuth
populated; with the new managed flag absent, and with the new admin-ID list
absent, `ValidateUpdate` does not return an error but panics on the nil
dereference. -/
theorem update_panics_on_incomplete_managed :
    exampleManaged.managedAuth.isSome = true ∧
    exampleManagedNoFlag.managedAuth =
      some ⟨none, some ["616077a8-5db7-4c98-b856-b34619afg75h"]⟩ ∧
    exampleManagedNoFlag.ValidateUpdate .rejectAll exampleManaged = .error .nilDereference ∧
    exampleManagedNoList.managedAuth = some ⟨some true, none⟩ ∧
    exampleManagedNoList.ValidateUpdate .rejectAll exampleManaged = .error .nilDereference :=
  ⟨rfl, rfl, rfl, rfl, rfl⟩

/-! ## Managed to Unset and Managed to Legacy (C28) -/

/-- C28, counterexample: from the same old object with ManagedAuth, the
profile-transition check reports the entry for `Spec.AADProfile` with "field
cannot be nil, cannot disable AADProfile" when the new profile is absent, and
the entry for `Spec.AADProfile.ManagedAAD` with "AADProfile cannot be disabled
or migrated to Legacy" (followed by the LegacyAAD entry) when the new profile is
LegacyAuth only. -/
theorem managed_to_unset_counterexample :
    exampleUnset.validateUpdateAadProfile exampleManaged.Spec.AADProfile =
      .ok [⟨["Spec", "AADProfile"], .aadProfile none,
        "field cannot be nil, cannot disable AADProfile"⟩] ∧
    exampleLegacy.validateUpdateAadProfile exampleManaged.Spec.AADProfile =
      .ok [⟨["Spec", "AADProfile", "ManagedAAD"], .managedAAD none,
          "AADProfile cannot be disabled or migrated to Legacy"⟩,
        ⟨["Spec", "AADProfile", "LegacyAAD"], .legacyAAD (some exampleLegacyAAD),
          "field is immutable"⟩] :=
  ⟨rfl, rfl⟩

/-- C28, amended: for an old profile with ManagedAuth populated, the
profile-transition check reports, when the new profile is absent, the single
entry for `Spec.AADProfile` with "field cannot be nil, cannot disable
AADProfile"; and when the new profile is present without ManagedAuth (LegacyAuth
only, or empty), the entry for `Spec.AADProfile.ManagedAAD` with "AADProfile
cannot be disabled or migrated to Legacy", followed by the entry "field is
immutable" for `Spec.AADProfile.LegacyAAD` when the new LegacyAuth differs from
the old one. -/
theorem managed_left_entries (r : AzureManagedControlPlane) (oldProfile : AADProfile)
    (hold : oldProfile.ManagedAAD.isSome = true) :
    (r.Spec.AADProfile = none →
      r.validateUpdateAadProfile (some oldProfile) =
        .ok [field.Invalid ["Spec", "AADProfile"] (.aadProfile none)
          "field cannot be nil, cannot disable AADProfile"]) ∧
    (∀ newProfile, r.Spec.AADProfile = some newProfile → newProfile.ManagedAAD = none →
      r.validateUpdateAadProfile (some oldProfile) =
        .ok (field.Invalid ["Spec", "AADProfile", "ManagedAAD"] (.managedAAD none)
            "AADProfile cannot be disabled or migrated to Legacy" ::
          if newProfile.LegacyAAD ≠ oldProfile.LegacyAAD then
            [field.Invalid ["Spec", "AADProfile", "LegacyAAD"] (.legacyAAD newProfile.LegacyAAD)
              "field is immutable"]
          else [])) := by
  obtain ⟨oldManaged, hom⟩ := Option.isSome_iff_exists.mp hold
  constructor
  · intro hnew
    simp [validateUpdateAadProfile, hnew, pure, Except.pure]
  · intro newProfile hnew hnm
    by_cases hleg : newProfile.LegacyAAD = oldProfile.LegacyAAD <;>
      simp [validateUpdateAadProfile, hnew, hnm, hom, hleg, bind, Except.bind, pure,
        Except.pure]

/-- C28, witness: the old profile of `exampleManaged`, with the new objects
`exampleUnset` and `exampleLegacy`. -/
theorem managed_left_entries_witness :
    (⟨some exampleManagedAAD, none⟩ : AADProfile).ManagedAAD.isSome = true ∧
    exampleLegacy.Spec.AADProfile = some ⟨none, some exampleLegacyAAD⟩ ∧
    exampleLegacy.validateUpdateAadProfile (some ⟨some exampleManagedAAD, none⟩) =
      .ok (field.Invalid ["Spec", "AADProfile", "ManagedAAD"] (.managedAAD none)
          "AADProfile cannot be disabled or migrated to Legacy" ::
        if (⟨none, some exampleLegacyAAD⟩ : AADProfile).LegacyAAD ≠
            (⟨some exampleManagedAAD, none⟩ : AADProfile).LegacyAAD then
          [field.Invalid ["Spec", "AADProfile", "LegacyAAD"]
            (.legacyAAD (⟨none, some exampleLegacyAAD⟩ : AADProfile).LegacyAAD)
            "field is immutable"]
        else []) :=
  ⟨rfl, rfl,
    (managed_left_entries exampleLegacy ⟨some exampleManagedAAD, none⟩ rfl).2 _ rfl rfl⟩

/-! ## The number of profile-transition entries (C29) -/

/-- C29, counterexample: the new object has no ManagedAuth (so old and new do
not both have ManagedAuth populated) and the profile-transition check returns
two entries. -/
theorem transition_two_entries_counterexample :
    exampleLegacy.managedAuth = none ∧
    exampleLegacy.validateUpdateAadProfile exampleManaged.Spec.AADProfile =
      .ok [⟨["Spec", "AADProfile", "ManagedAAD"], .managedAAD none,
          "AADProfile cannot be disabled or migrated to Legacy"⟩,
        ⟨["Spec", "AADProfile", "LegacyAAD"], .legacyAAD (some exampleLegacyAAD),
          "field is immutable"⟩] :=
  ⟨rfl, rfl⟩

/-- C29, amended: whenever the profile-transition check returns a list, the
list has at most two entries, and at most one entry when the old object has no
ManagedAuth populated. -/
theorem transition_entry_count (r : AzureManagedControlPlane) (old : Option AADProfile)
    (errs : List FieldError) (h : r.validateUpdateAadProfile old = .ok errs) :
    errs.length ≤ 2 ∧ ((∀ oldProfile, old = some oldProfile → oldProfile.ManagedAAD = none) →
      errs.length ≤ 1) := by
  cases old with
  | none =>
    cases hp : r.Spec.AADProfile with
    | none =>
      simp [validateUpdateAadProfile, hp, pure, Except.pure] at h
      subst h
      simp
    | some newProfile =>
      cases hl : newProfile.LegacyAAD <;>
        simp [validateUpdateAadProfile, hp, hl, pure, Except.pure] at h <;> subst h <;> simp
  | some oldProfile =>
    cases hp : r.Spec.AADProfile with
    | none =>
      simp [validateUpdateAadProfile, hp, pure, Except.pure] at h
      subst h
      simp
    | some newProfile =>
      by_cases hleg : newProfile.LegacyAAD = oldProfile.LegacyAAD <;>
      cases hom : oldProfile.ManagedAAD <;> cases hnm : newProfile.ManagedAAD
      all_goals first
        | (simp [validateUpdateAadProfile, hp, hom, hnm, hleg, bind, Except.bind, pure,
            Except.pure] at h
           subst h
           simp [hom])
        | (rename_i newManaged
           obtain ⟨flag, list⟩ := newManaged
           cases flag <;> cases list <;>
             simp [validateUpdateAadProfile, hp, hom, hnm, hleg, deref, bind, Except.bind, pure,
               Except.pure] at h
           all_goals (rename_i managed ids
                      cases managed <;> cases ids <;> simp at h <;> subst h <;> simp [hom]))

/-- C29, witness: the two entries of the update from `exampleManaged` to
`exampleLegacy`. -/
theorem transition_entry_count_witness :
    exampleLegacy.validateUpdateAadProfile (some ⟨some exampleManagedAAD, none⟩) =
      .ok [⟨["Spec", "AADProfile", "ManagedAAD"], .managedAAD none,
          "AADProfile cannot be disabled or migrated to Legacy"⟩,
        ⟨["Spec", "AADProfile", "LegacyAAD"], .legacyAAD (some exampleLegacyAAD),
          "field is immutable"⟩] ∧
    ([⟨["Spec", "AADProfile", "ManagedAAD"], .managedAAD none,
          "AADProfile cannot be disabled or migrated to Legacy"⟩,
        ⟨["Spec", "AADProfile", "LegacyAAD"], .legacyAAD (some exampleLegacyAAD),
          "field is immutable"⟩] : List FieldError).length ≤ 2 :=
  ⟨rfl, (transition_entry_count exampleLegacy (some ⟨some exampleManagedAAD, none⟩) _ rfl).1⟩

/-! ## The order of the update entries (C30) -/

/-- The comparison of an identity field yields at most one entry, and none
exactly when the field is unchanged. -/
theorem identityFieldErrs_shape (path : List String) (new old : String) :
    (identityFieldErrs path new old).length ≤ 1 ∧
    (identityFieldErrs path new old = [] ↔ new = old) := by
  unfold identityFieldErrs
  by_cases h : new = old <;> simp [h]

/-- The comparison of a string field that is immutable once non-empty yields at
most one entry, and none exactly when the old value was empty or is kept. -/
theorem stickyStringErrs_shape (path : List String) (new old : String) :
    (stickyStringErrs path new old).length ≤ 1 ∧
    (stickyStringErrs path new old = [] ↔ (old = "" ∨ new = old)) := by
  unfold stickyStringErrs
  by_cases ho : old = "" <;> by_cases h : new = old <;> simp [ho, h]

/-- The comparison of an optional field that is immutable once set yields at
most one entry, and none exactly when the field was unset or is kept. -/
theorem stickyFieldErrs_shape (path : List String) (new old : Option String) :
    (stickyFieldErrs path new old).length ≤ 1 ∧
    (stickyFieldErrs path new old = [] ↔ (old = none ∨ new = old)) := by
  cases old with
  | none => simp [stickyFieldErrs]
  | some oldValue =>
    cases new with
    | none => simp [stickyFieldErrs]
    | some newValue => by_cases h : newValue = oldValue <;> simp [stickyFieldErrs, h]

/-- C30: the immutability entries of `ValidateUpdate` are the concatenation, in
the order subscription ID, resource-group name, node-resource-group name,
location, SSH public key, DNS service IP, network plugin, network policy,
load-balancer SKU, pool reference, of ten lists of at most one entry each, every
entry carrying the path of its field; the list `ValidateUpdate` reports is
these entries followed by the profile-transition entries; and the immutability
entries followed by the transition entries are empty exactly when each of the
ten rules holds (identity fields unchanged, the other fields unchanged or
previously unset) and the transition check reports nothing. -/
theorem update_entries_ordered (c : Collaborators) (r old : AzureManagedControlPlane) :
    r.immutableFieldErrs old =
      identityFieldErrs ["Spec", "SubscriptionID"] r.Spec.SubscriptionID old.Spec.SubscriptionID ++
      identityFieldErrs ["Spec", "ResourceGroupName"] r.Spec.ResourceGroupName
        old.Spec.ResourceGroupName ++
      identityFieldErrs ["Spec", "NodeResourceGroupName"] r.Spec.NodeResourceGroupName
        old.Spec.NodeResourceGroupName ++
      identityFieldErrs ["Spec", "Location"] r.Spec.Location old.Spec.Location ++
      stickyStringErrs ["Spec", "SSHPublicKey"] r.Spec.SSHPublicKey old.Spec.SSHPublicKey ++
      stickyFieldErrs ["Spec", "DNSServiceIP"] r.Spec.DNSServiceIP old.Spec.DNSServiceIP ++
      stickyFieldErrs ["Spec", "NetworkPlugin"] r.Spec.NetworkPlugin old.Spec.NetworkPlugin ++
      stickyFieldErrs ["Spec", "NetworkPolicy"] r.Spec.NetworkPolicy old.Spec.NetworkPolicy ++
      stickyFieldErrs ["Spec", "LoadBalancerSKU"] r.Spec.LoadBalancerSKU
        old.Spec.LoadBalancerSKU ++
      stickyStringErrs ["Spec", "DefaultPoolRef", "Name"] r.Spec.DefaultPoolRef.Name
        old.Spec.DefaultPoolRef.Name ∧
    (∀ (path : List String) (new old : String),
      (identityFieldErrs path new old).length ≤ 1 ∧
      (stickyStringErrs path new old).length ≤ 1 ∧
      (∀ e ∈ identityFieldErrs path new old, e.Field = path) ∧
      (∀ e ∈ stickyStringErrs path new old, e.Field = path)) ∧
    (∀ (path : List String) (new old : Option String),
      (stickyFieldErrs path new old).length ≤ 1 ∧
      (∀ e ∈ stickyFieldErrs path new old, e.Field = path)) ∧
    (∀ name errs, r.ValidateUpdate c old = .ok (some (.invalid name errs)) →
      ∃ transition, r.validateUpdateAadProfile old.Spec.AADProfile = .ok transition ∧
        errs = r.immutableFieldErrs old ++ transition ∧ errs ≠ []) ∧
    (∀ transition, r.validateUpdateAadProfile old.Spec.AADProfile = .ok transition →
      (r.immutableFieldErrs old ++ transition ≠ [] →
        r.ValidateUpdate c old =
          .ok (some (.invalid r.Name (r.immutableFieldErrs old ++ transition)))) ∧
      (r.immutableFieldErrs old ++ transition = [] ↔
        (r.Spec.SubscriptionID = old.Spec.SubscriptionID ∧
          r.Spec.ResourceGroupName = old.Spec.ResourceGroupName ∧
          r.Spec.NodeResourceGroupName = old.Spec.NodeResourceGroupName ∧
          r.Spec.Location = old.Spec.Location ∧
          (old.Spec.SSHPublicKey = "" ∨ r.Spec.SSHPublicKey = old.Spec.SSHPublicKey) ∧
          (old.Spec.DNSServiceIP = none ∨ r.Spec.DNSServiceIP = old.Spec.DNSServiceIP) ∧
          (old.Spec.NetworkPlugin = none ∨ r.Spec.NetworkPlugin = old.Spec.NetworkPlugin) ∧
          (old.Spec.NetworkPolicy = none ∨ r.Spec.NetworkPolicy = old.Spec.NetworkPolicy) ∧
          (old.Spec.LoadBalancerSKU = none ∨
            r.Spec.LoadBalancerSKU = old.Spec.LoadBalancerSKU) ∧
          (old.Spec.DefaultPoolRef.Name = "" ∨
            r.Spec.DefaultPoolRef.Name = old.Spec.DefaultPoolRef.Name)) ∧
        transition = [])) := by
  refine ⟨immutableFieldErrs_eq r old, fun path new old => ?_, fun path new old => ?_, ?_, ?_⟩
  · exact ⟨(identityFieldErrs_shape path new old).1, (stickyStringErrs_shape path new old).1,
      fun e he => field_of_mem_identityFieldErrs e path new old he,
      fun e he => field_of_mem_stickyStringErrs e path new old he⟩
  · exact ⟨(stickyFieldErrs_shape path new old).1,
      fun e he => field_of_mem_stickyFieldErrs e path new old he⟩
  · intro name errs hres
    cases ht : r.validateUpdateAadProfile old.Spec.AADProfile with
    | error p => simp [ValidateUpdate, ht, bind, Except.bind] at hres
    | ok transition =>
      by_cases hnil : r.immutableFieldErrs old ++ transition = []
      · have hlen : (r.immutableFieldErrs old ++ transition).length = 0 := by simp [hnil]
        simp only [ValidateUpdate, ht, bind, Except.bind] at hres
        rw [if_pos hlen] at hres
        cases haad : r.validateAadProfile with
        | error p => rw [Validate_eq_of_aad_panic c r p haad] at hres; cases hres
        | ok e =>
          rw [Validate_eq_of_aad c r e haad] at hres
          generalize r.validateVersion.toList ++ (r.validateDNSServiceIP c).toList ++
            (r.validateSSHKey c).toList ++ e.toList = all at hres
          cases all <;> simp [kerrors.NewAggregate] at hres
      · rw [ValidateUpdate_of_entries c r old transition ht hnil] at hres
        simp only [Except.ok.injEq, Option.some.injEq, WebhookError.invalid.injEq] at hres
        exact ⟨transition, rfl, hres.2.symm, by rw [← hres.2]; exact hnil⟩
  · intro transition ht
    refine ⟨ValidateUpdate_of_entries c r old transition ht, ?_⟩
    have h1 := fun path new old => (identityFieldErrs_shape path new old).2
    have h2 := fun path new old => (stickyStringErrs_shape path new old).2
    have h3 := fun path new old => (stickyFieldErrs_shape path new old).2
    rw [List.append_eq_nil, immutableFieldErrs_eq]
    simp only [List.append_eq_nil, h1, h2, h3, and_assoc]


/-! ## The update that changes nothing (C31) -/

/-- An object compared with itself yields no immutability entries. -/
theorem immutableFieldErrs_self (r : AzureManagedControlPlane) : r.immutableFieldErrs r = [] :=
  immutableFieldErrs_eq_nil r r rfl rfl rfl rfl (Or.inr rfl) (Or.inr rfl) (Or.inr rfl)
    (Or.inr rfl) (Or.inr rfl) (Or.inr rfl)

/-- When the profile validator reports nothing on an object with ManagedAuth
populated, the profile has no LegacyAuth, and the ManagedAuth has both fields
present: either the managed flag is true and the admin-ID list is non-empty, or
the flag is false and the list is empty. -/
theorem managed_of_valid_profile (r : AzureManagedControlPlane) (profile : AADProfile)
    (m : ManagedAAD) (hp : r.Spec.AADProfile = some profile) (hm : profile.ManagedAAD = some m)
    (hvalid : r.validateAadProfile = .ok none) :
    profile.LegacyAAD = none ∧
    ((∃ ids, ids ≠ [] ∧ m = ⟨some true, some ids⟩) ∨ m = ⟨some false, some []⟩) := by
  obtain ⟨flag, list⟩ := m
  cases flag with
  | none =>
    simp [validateAadProfile, validateManagedAadProfile, hp, hm, deref, bind, Except.bind]
      at hvalid
  | some managed =>
    cases list with
    | none =>
      cases managed <;>
        simp [validateAadProfile, validateManagedAadProfile, hp, hm, deref, bind, Except.bind,
          pure, Except.pure] at hvalid
    | some ids =>
      cases hl : profile.LegacyAAD <;> cases managed <;> cases ids <;>
        simp [validateAadProfile, validateManagedAadProfile, validateLegacyAadProfile, hp, hm,
          hl, deref, errors.New, bind, Except.bind, pure, Except.pure] at hvalid ⊢

/-- C31, counterexample: the object with `managed = false` and an empty
admin-ID list passes `Validate`, and the update that changes nothing is
rejected with the two Managed-to-Managed entries. -/
theorem noop_update_counterexample :
    exampleManagedDisabled.Validate .rejectAll = .ok none ∧
    exampleManagedDisabled.ValidateUpdate .rejectAll exampleManagedDisabled =
      .ok (some (.invalid ""
        [⟨["Spec", "AADProfile", "ManagedAAD"], .boolPtr (some false),
          "field cannot be set to false"⟩,
         ⟨["Spec", "AADProfile", "AdminGroupObjectIDs"], .strSlicePtr (some []),
          "need atleast one AdminGroupObjectID"⟩])) :=
  ⟨rfl, rfl⟩

/-- C31, amended: for an object on which `Validate` succeeds, the update that
changes nothing succeeds if and only if the ManagedAuth, when populated, has the
managed flag true; otherwise (managed false, and then the admin-ID list is
empty) `ValidateUpdate` returns the invalid error with the entries "field
cannot be set to false" and "need atleast one AdminGroupObjectID". -/
theorem noop_update (c : Collaborators) (r : AzureManagedControlPlane)
    (h : r.Validate c = .ok none) :
    (r.ValidateUpdate c r = .ok none ↔ ∀ m, r.managedAuth = some m → m.Managed = some true) ∧
    (∀ m, r.managedAuth = some m → m.Managed ≠ some true →
      r.ValidateUpdate c r = .ok (some (.invalid r.Name
        [field.Invalid ["Spec", "AADProfile", "ManagedAAD"] (.boolPtr (some false))
          "field cannot be set to false",
         field.Invalid ["Spec", "AADProfile", "AdminGroupObjectIDs"] (.strSlicePtr (some []))
          "need atleast one AdminGroupObjectID"]))) := by
  have haad := ((Validate_ok_none_iff c r).mp h).2.2.2
  have hdisabled : ∀ m, r.managedAuth = some m → m.Managed ≠ some true →
      r.validateUpdateAadProfile r.Spec.AADProfile = .ok
        [field.Invalid ["Spec", "AADProfile", "ManagedAAD"] (.boolPtr (some false))
          "field cannot be set to false",
         field.Invalid ["Spec", "AADProfile", "AdminGroupObjectIDs"] (.strSlicePtr (some []))
          "need atleast one AdminGroupObjectID"] := by
    intro m hm hflag
    cases hp : r.Spec.AADProfile with
    | none => simp [managedAuth, hp] at hm
    | some profile =>
      simp only [managedAuth, hp] at hm
      rcases (managed_of_valid_profile r profile m hp hm haad).2 with ⟨ids, _, rfl⟩ | rfl
      · exact absurd rfl hflag
      · simp [validateUpdateAadProfile, hp, hm, deref, bind, Except.bind, pure, Except.pure]
  refine ⟨⟨fun hok m hm => ?_, fun hflag => ?_⟩, fun m hm hflag => ?_⟩
  · by_contra hflag
    have h2 := ((ValidateUpdate_ok_none_iff c r r).mp hok).2.1
    rw [hdisabled m hm hflag] at h2
    simp at h2
  · exact (ValidateUpdate_ok_none_iff c r r).mpr
      ⟨immutableFieldErrs_self r, transition_same_profile r r rfl haad hflag, h⟩
  · have hres := ValidateUpdate_of_entries c r r _ (hdisabled m hm hflag) (by simp)
    rw [immutableFieldErrs_self, List.nil_append] at hres
    exact hres

/-- C31, witness: the object `exampleManaged`, whose managed flag is true. -/
theorem noop_update_witness :
    exampleManaged.Validate .rejectAll = .ok none ∧
    (exampleManaged.ValidateUpdate .rejectAll exampleManaged = .ok none ↔
      ∀ m, exampleManaged.managedAuth = some m → m.Managed = some true) ∧
    exampleManaged.ValidateUpdate .rejectAll exampleManaged = .ok none :=
  ⟨rfl, (noop_update .rejectAll exampleManaged rfl).1, rfl⟩

/-! ## Accepted updates leave a valid object (C32) -/

/-- C32: if `ValidateUpdate` succeeds then `Validate` succeeds on the new
object; so the new object does not have both LegacyAuth and ManagedAuth
populated, and its version matches the version pattern, that is, has the
documented form. -/
theorem accepted_update_is_valid (c : Collaborators) (r old : AzureManagedControlPlane)
    (h : r.ValidateUpdate c old = .ok none) :
    r.Validate c = .ok none ∧
    ¬ (r.legacyAuth.isSome = true ∧ r.managedAuth.isSome = true) ∧
    kubeSemver.MatchString r.Spec.Version = true ∧ HasVersionForm r.Spec.Version := by
  have hvalid := ((ValidateUpdate_ok_none_iff c r old).mp h).2.2
  obtain ⟨hversion, _, _, haad⟩ := (Validate_ok_none_iff c r).mp hvalid
  have hmatch := (validateVersion_eq r).1.mp hversion
  refine ⟨hvalid, ?_, hmatch, (kubeSemver_matches_iff _).mp hmatch⟩
  rintro ⟨hl, hm⟩
  cases hp : r.Spec.AADProfile with
  | none => simp [legacyAuth, hp] at hl
  | some profile =>
    simp only [legacyAuth, managedAuth, hp] at hl hm
    obtain ⟨m, hmanaged⟩ := Option.isSome_iff_exists.mp hm
    rw [(managed_of_valid_profile r profile m hp hmanaged haad).1] at hl
    simp at hl

/-- C32, witness: the accepted update from `exampleManaged` to
`exampleManagedAzure`. -/
theorem accepted_update_is_valid_witness :
    exampleManagedAzure.ValidateUpdate .rejectAll exampleManaged = .ok none ∧
    exampleManagedAzure.Validate .rejectAll = .ok none ∧
    ¬ (exampleManagedAzure.legacyAuth.isSome = true ∧
      exampleManagedAzure.managedAuth.isSome = true) ∧
    kubeSemver.MatchString exampleManagedAzure.Spec.Version = true ∧
    HasVersionForm exampleManagedAzure.Spec.Version :=
  ⟨rfl, accepted_update_is_valid .rejectAll exampleManagedAzure exampleManaged rfl⟩

/-! ## Idempotence of Default (C33) -/

/-- C33: applying `Default` a second time, whatever the outcomes of the two
key generations, leaves the network plugin, the load-balancer SKU, the network
policy and the version as the first application set them.  In particular a
non-empty version that does not begin with `v` is "v" followed by the old
version after two applications: no second "v" is prepended. -/
theorem Default_idempotent (first second : Option String) (r : AzureManagedControlPlane) :
    ((r.Default first).Default second).Spec.NetworkPlugin =
      (r.Default first).Spec.NetworkPlugin ∧
    ((r.Default first).Default second).Spec.LoadBalancerSKU =
      (r.Default first).Spec.LoadBalancerSKU ∧
    ((r.Default first).Default second).Spec.NetworkPolicy =
      (r.Default first).Spec.NetworkPolicy ∧
    ((r.Default first).Default second).Spec.Version = (r.Default first).Spec.Version ∧
    (r.Spec.Version ≠ "" → (∀ rest, r.Spec.Version.toList ≠ 'v' :: rest) →
      ((r.Default first).Default second).Spec.Version = "v" ++ r.Spec.Version) := by
  have hfields : ∀ (g : Option String) (x : AzureManagedControlPlane),
      (x.Default g).Spec.NetworkPlugin = some (x.Spec.NetworkPlugin.getD "azure") ∧
      (x.Default g).Spec.LoadBalancerSKU = some (x.Spec.LoadBalancerSKU.getD "Standard") ∧
      (x.Default g).Spec.NetworkPolicy = some (x.Spec.NetworkPolicy.getD "calico") := by
    intro g x
    rw [Default_eq]
    exact ⟨rfl, rfl, rfl⟩
  obtain ⟨p1, l1, n1⟩ := hfields first r
  obtain ⟨p2, l2, n2⟩ := hfields second (r.Default first)
  have hversion : ((r.Default first).Default second).Spec.Version =
      (r.Default first).Spec.Version := by
    rw [Default_version_eq second (r.Default first)]
    apply if_neg
    rintro ⟨hne, hpre⟩
    rw [Default_version_eq first r] at hne hpre
    by_cases hc : r.Spec.Version ≠ "" ∧ strings.HasPrefix r.Spec.Version "v" = false
    · rw [if_pos hc] at hpre
      have hv : strings.HasPrefix ("v" ++ r.Spec.Version) "v" = true :=
        (HasPrefix_v_iff _).mpr ⟨_, toList_v_append _⟩
      rw [hv] at hpre
      cases hpre
    · rw [if_neg hc] at hne hpre
      exact hc ⟨hne, hpre⟩
  refine ⟨by rw [p2, p1]; rfl, by rw [l2, l1]; rfl, by rw [n2, n1]; rfl, hversion, ?_⟩
  intro hne hv
  rw [hversion, Default_version_of_no_v first r hne hv]

/-! ## Changing the admin-ID list (C34) -/

/-- C34: when the old object passes `Validate` and has a ManagedAuth with the
managed flag true, the new object that equals it except for the admin-ID list,
replaced by any non-empty list (different from the old one or not), is accepted
by `ValidateUpdate`. -/
theorem admin_ids_can_change (c : Collaborators) (old : AzureManagedControlPlane)
    (profile : AADProfile) (oldIDs newIDs : List String)
    (hp : old.Spec.AADProfile = some profile)
    (hm : profile.ManagedAAD = some ⟨some true, some oldIDs⟩)
    (hnew : newIDs ≠ [])
    (hvalid : old.Validate c = .ok none) :
    ({ old with
        Spec.AADProfile := some { profile with ManagedAAD := some ⟨some true, some newIDs⟩ } } :
      AzureManagedControlPlane).ValidateUpdate c old = .ok none := by
  have hv := (Validate_ok_none_iff c old).mp hvalid
  obtain ⟨hlegacy, _⟩ := managed_of_valid_profile old profile _ hp hm hv.2.2.2
  obtain ⟨head, tail, rfl⟩ := List.exists_cons_of_ne_nil hnew
  rw [ValidateUpdate_ok_none_iff]
  refine ⟨immutableFieldErrs_eq_nil _ _ rfl rfl rfl rfl (Or.inr rfl) (Or.inr rfl) (Or.inr rfl)
    (Or.inr rfl) (Or.inr rfl) (Or.inr rfl), ?_, ?_⟩
  · rw [hp]
    simp [validateUpdateAadProfile, hm, deref, bind, Except.bind, pure, Except.pure]
  · rw [Validate_ok_none_iff]
    refine ⟨hv.1, hv.2.1, hv.2.2.1, ?_⟩
    simp [validateAadProfile, validateManagedAadProfile, validateLegacyAadProfile, hlegacy,
      deref, bind, Except.bind, pure, Except.pure]

/-- C34, witness: the administrator group of `exampleManaged` replaced by
another one. -/
theorem admin_ids_can_change_witness :
    exampleManaged.Spec.AADProfile = some ⟨some exampleManagedAAD, none⟩ ∧
    (⟨some exampleManagedAAD, none⟩ : AADProfile).ManagedAAD =
      some ⟨some true, some ["616077a8-5db7-4c98-b856-b34619afg75h"]⟩ ∧
    ["727077a8-5db7-4c98-b856-b34619afg75h"] ≠ ["616077a8-5db7-4c98-b856-b34619afg75h"] ∧
    exampleManaged.Validate .rejectAll = .ok none ∧
    exampleManagedOtherGroup =
      { exampleManaged with
        Spec.AADProfile :=
          some { (⟨some exampleManagedAAD, none⟩ : AADProfile) with
            ManagedAAD := some ⟨some true, some ["727077a8-5db7-4c98-b856-b34619afg75h"]⟩ } } ∧
    ({ exampleManaged with
        Spec.AADProfile :=
          some { (⟨some exampleManagedAAD, none⟩ : AADProfile) with
            ManagedAAD := some ⟨some true, some ["727077a8-5db7-4c98-b856-b34619afg75h"]⟩ } } :
      AzureManagedControlPlane).ValidateUpdate .rejectAll exampleManaged = .ok none :=
  ⟨rfl, rfl, by decide, rfl, rfl,
    admin_ids_can_change .rejectAll exampleManaged _ _ _ rfl rfl (by decide) rfl⟩

/-! ## Leading zero in the patch number (C35) -/

/-- C35: a version `v` MAJOR `.` MINOR `.` `0` DIGITS, whose patch number is
written with a leading zero, passes `validateVersion` for every sequence DIGITS
of decimal digits: the pattern reads the patch as "0" and the digits as the
suffix. -/
theorem patch_leading_zero_accepted (r : AzureManagedControlPlane)
    (major minor digits : List Char)
    (hform : r.Spec.Version.toList = 'v' :: (major ++ '.' :: (minor ++ '.' :: '0' :: digits)))
    (hmajor : IsVersionNumber major) (hminor : IsVersionNumber minor)
    (hdigits : ∀ c ∈ digits, IsDecimalDigit c) :
    kubeSemver.MatchString r.Spec.Version = true ∧ r.validateVersion = none := by
  have hmatch : kubeSemver.MatchString r.Spec.Version = true :=
    (kubeSemver_matches_iff _).mpr
      ⟨major, minor, ['0'], digits, hform, hmajor, hminor, Or.inl rfl,
        fun c hc => Or.inr (Or.inl (hdigits c hc))⟩
  exact ⟨hmatch, (validateVersion_eq r).1.mpr hmatch⟩

/-- C35, witness: the version "v1.2.03". -/
theorem patch_leading_zero_accepted_witness :
    exampleLeadingZeroPatch.Spec.Version = "v1.2.03" ∧
    exampleLeadingZeroPatch.Spec.Version.toList =
      'v' :: (['1'] ++ '.' :: (['2'] ++ '.' :: '0' :: ['3'])) ∧
    IsVersionNumber ['1'] ∧ IsVersionNumber ['2'] ∧ (∀ c ∈ ['3'], IsDecimalDigit c) ∧
    kubeSemver.MatchString exampleLeadingZeroPatch.Spec.Version = true ∧
    exampleLeadingZeroPatch.validateVersion = none :=
  have h1 : IsVersionNumber ['1'] := Or.inr ⟨'1', [], rfl, by decide, by simp⟩
  have h2 : IsVersionNumber ['2'] := Or.inr ⟨'2', [], rfl, by decide, by simp⟩
  have h3 : ∀ c ∈ ['3'], IsDecimalDigit c := by
    intro c hc
    rw [List.mem_singleton.mp hc]
    unfold IsDecimalDigit
    decide
  ⟨rfl, rfl, h1, h2, h3,
    patch_leading_zero_accepted exampleLeadingZeroPatch ['1'] ['2'] ['3'] rfl h1 h2 h3⟩
end V1alpha3
